import Mathlib

/-!
Verification development for the 2D collision engine of `p5.play.js`
(collision shapes + SAT, swept narrow phase, sprite collision resolver,
quadtree spatial index).

JavaScript floating-point arithmetic is idealized as exact real arithmetic
(`ℝ`); the quadtree, whose arithmetic is closed over the rationals, is
embedded over `ℚ` so that its statements are decidable.  Where JavaScript
produces `Infinity`/`NaN` (division by zero, the `Infinity` initialisation
of the SAT loop accumulator) the embedding makes the corresponding control
flow explicit: the loop accumulator is an `Option`, and branches guarded by
possibly-infinite quantities carry the guard explicitly.  A JavaScript
crash (the `null` dereference reachable in `collide`) is modelled by
`Option`-valued results, `none` meaning the function throws.
-/

namespace P5

noncomputable section

/-- 2D vector (p5.Vector restricted to the two components this library uses). -/
@[ext]
structure Vec where
  x : ℝ
  y : ℝ

noncomputable instance : DecidableEq Vec := fun _ _ => Classical.dec _

namespace Vec

def add (a b : Vec) : Vec := ⟨a.x + b.x, a.y + b.y⟩

def sub (a b : Vec) : Vec := ⟨a.x - b.x, a.y - b.y⟩

def smul (k : ℝ) (a : Vec) : Vec := ⟨k * a.x, k * a.y⟩

def dot (a b : Vec) : ℝ := a.x * b.x + a.y * b.y

def magSq (a : Vec) : ℝ := a.x * a.x + a.y * a.y

/-- p5.Vector.prototype.mag. -/
noncomputable def mag (a : Vec) : ℝ := Real.sqrt (a.x * a.x + a.y * a.y)

def zero : Vec := ⟨0, 0⟩

/-- p5.Vector.project: projection of `a` onto the line parallel to `b`. -/
noncomputable def project (a b : Vec) : Vec := smul (dot a b / dot b b) b

/-- p5.Vector.prototype.setMag: normalize then scale to magnitude `m`
(p5's normalize leaves the zero vector unchanged). -/
noncomputable def setMag (v : Vec) (m : ℝ) : Vec :=
  if mag v = 0 then v else smul (m / mag v) v

/-- p5.Vector.prototype.isParallel with its default 1e-14 tolerance.
The third clause of the source divides componentwise; in JavaScript a
division by zero yields `±Infinity`/`NaN` and the comparison with the
tolerance is then false, so the clause only applies when both divisors
are nonzero. -/
def isParallel (v w : Vec) : Prop :=
  (|v.x| < 1 / 10 ^ 14 ∧ |w.x| < 1 / 10 ^ 14) ∨
  (|v.y| < 1 / 10 ^ 14 ∧ |w.y| < 1 / 10 ^ 14) ∨
  (w.x ≠ 0 ∧ w.y ≠ 0 ∧ |v.x / w.x - v.y / w.y| < 1 / 10 ^ 14)

noncomputable instance : Decidable (isParallel v w) := by
  unfold isParallel; infer_instance

end Vec

/-- p5.Transform2D: a 2D affine transform stored as the first six entries
of a 3x3 homogeneous matrix, `x' = t0 x + t1 y + t2`, `y' = t3 x + t4 y + t5`. -/
@[ext]
structure Transform2D where
  t0 : ℝ
  t1 : ℝ
  t2 : ℝ
  t3 : ℝ
  t4 : ℝ
  t5 : ℝ

namespace Transform2D

/-- The identity transform (`clear`, and the argumentless constructor). -/
def identity : Transform2D := ⟨1, 0, 0, 0, 1, 0⟩

/-- p5.Transform2D.mult (static): matrix product `t1 * t2`. -/
def mult (a b : Transform2D) : Transform2D :=
  ⟨a.t0 * b.t0 + a.t1 * b.t3,
   a.t0 * b.t1 + a.t1 * b.t4,
   a.t0 * b.t2 + a.t1 * b.t5 + a.t2,
   a.t3 * b.t0 + a.t4 * b.t3,
   a.t3 * b.t1 + a.t4 * b.t4,
   a.t3 * b.t2 + a.t4 * b.t5 + a.t5⟩

/-- p5.Transform2D.prototype.translate: prepend a translation. -/
def translate (t : Transform2D) (v : Vec) : Transform2D :=
  mult ⟨1, 0, v.x, 0, 1, v.y⟩ t

/-- p5.Transform2D.prototype.scale (two-scalar / vector form). -/
def scale (t : Transform2D) (sx sy : ℝ) : Transform2D :=
  mult ⟨sx, 0, 0, 0, sy, 0⟩ t

/-- p5.Transform2D.prototype.rotate. -/
noncomputable def rotate (t : Transform2D) (radians : ℝ) : Transform2D :=
  mult ⟨Real.cos radians, -Real.sin radians, 0, Real.sin radians, Real.cos radians, 0⟩ t

/-- p5.Vector.prototype.transform: apply the transform to a point. -/
def apply (t : Transform2D) (v : Vec) : Vec :=
  ⟨t.t0 * v.x + t.t1 * v.y + t.t2, t.t3 * v.x + t.t4 * v.y + t.t5⟩

/-- p5.Transform2D.prototype.getScale (the `sign` helper agrees with
`Real.sign`, including `sign 0 = 0`). -/
noncomputable def getScale (t : Transform2D) : Vec :=
  ⟨Real.sign t.t0 * Real.sqrt (t.t0 * t.t0 + t.t1 * t.t1),
   Real.sign t.t4 * Real.sqrt (t.t3 * t.t3 + t.t4 * t.t4)⟩

end Transform2D

/-- The collision-shape family.  Each shape owns a local transform and a
parent transform; the quantities the source caches in `_onTransformChanged`
(`_center`, `_scaledRadius`, `_halfDiagonals`, `_potentialAxes`) are always
recomputed from the two transforms on every transform mutation, so the
embedding derives them as functions of the stored transforms. -/
inductive Collider where
  | point (lt pt : Transform2D)
  | circle (lt pt : Transform2D) (radius : ℝ)
  | aabb (lt pt : Transform2D) (width height : ℝ)
  | obb (lt pt : Transform2D) (width height : ℝ)

namespace Collider

def lt : Collider → Transform2D
  | point l _ => l
  | circle l _ _ => l
  | aabb l _ _ _ => l
  | obb l _ _ _ => l

def pt : Collider → Transform2D
  | point _ p => p
  | circle _ p _ => p
  | aabb _ p _ _ => p
  | obb _ p _ _ => p

/-- CollisionShape._onTransformChanged: `_offset` is the local transform
applied to the origin. -/
def offsetOf (c : Collider) : Vec := (lt c).apply Vec.zero

/-- CollisionShape._onTransformChanged: `_center` is the parent transform
applied to the offset. -/
def center (c : Collider) : Vec := (pt c).apply (offsetOf c)

/-- CircleCollider._computeScaledRadius. -/
noncomputable def scaledRadiusAux (l p : Transform2D) (r : ℝ) : ℝ :=
  Vec.mag (Vec.sub (p.apply (l.apply ⟨r, 0⟩)) (p.apply (l.apply Vec.zero)))

/-- AxisAlignedBoundingBoxCollider._computeHalfDiagonals: transform the
rectangle, take per-axis extrema, and store the two axis-aligned half
diagonals. -/
def aabbHalfDiagonals (l p : Transform2D) (w h : ℝ) : Vec × Vec :=
  let composed := Transform2D.mult p l
  let c := p.apply (l.apply Vec.zero)
  let d0 := Vec.sub (composed.apply ⟨w / 2, -h / 2⟩) c
  let d1 := Vec.sub (composed.apply ⟨w / 2, h / 2⟩) c
  let d2 := Vec.sub (composed.apply ⟨-w / 2, h / 2⟩) c
  let hw := max |d0.x| |d1.x|
  let hh := max |d1.y| |d2.y|
  (⟨hw, -hh⟩, ⟨hw, hh⟩)

/-- OrientedBoundingBoxCollider._onTransformChanged: world-space vertices of
the (possibly sheared) rectangle. -/
def obbVertices (l p : Transform2D) (w h : ℝ) : Vec × Vec × Vec :=
  let composed := Transform2D.mult p l
  (composed.apply ⟨w / 2, -h / 2⟩, composed.apply ⟨w / 2, h / 2⟩,
   composed.apply ⟨-w / 2, h / 2⟩)

/-- OrientedBoundingBoxCollider: cached `_halfDiagonals`. -/
def obbHalfDiagonals (l p : Transform2D) (w h : ℝ) : Vec × Vec :=
  let v := obbVertices l p w h
  let c := p.apply (l.apply Vec.zero)
  (Vec.sub v.1 c, Vec.sub v.2.1 c)

/-- OrientedBoundingBoxCollider: cached `_potentialAxes` (the two edge
vectors of the transformed rectangle). -/
def obbPotentialAxes (l p : Transform2D) (w h : ℝ) : Vec × Vec :=
  let v := obbVertices l p w h
  (Vec.sub v.2.1 v.2.2, Vec.sub v.2.1 v.1)

/-- The cached `halfDiagonals` property read by CircleCollider's candidate
axis search (only box shapes expose it; other shapes never reach that code). -/
def halfDiagonals : Collider → Vec × Vec
  | aabb l p w h => aabbHalfDiagonals l p w h
  | obb l p w h => obbHalfDiagonals l p w h
  | _ => (Vec.zero, Vec.zero)

def isBox : Collider → Prop
  | aabb _ _ _ _ => True
  | obb _ _ _ _ => True
  | _ => False

instance : DecidablePred isBox := by
  intro c; cases c <;> simp [isBox] <;> infer_instance

/-- `_getRadiusOnAxis`, per shape: the base class (points) contributes 0, a
circle its scaled radius, boxes the larger of the two half-diagonal
projections on the axis. -/
noncomputable def radiusOnAxis (c : Collider) (axis : Vec) : ℝ :=
  match c with
  | point _ _ => 0
  | circle l p r => scaledRadiusAux l p r
  | aabb l p w h =>
      let hd := aabbHalfDiagonals l p w h
      max (Vec.mag (Vec.project hd.1 axis)) (Vec.mag (Vec.project hd.2 axis))
  | obb l p w h =>
      let hd := obbHalfDiagonals l p w h
      max (Vec.mag (Vec.project hd.1 axis)) (Vec.mag (Vec.project hd.2 axis))

/-- `_getMinRadius`, per shape (for tunnelling checks): base class 0, circle
its scaled radius, boxes `min(width, height)` of the untransformed box. -/
noncomputable def minRadius : Collider → ℝ
  | point _ _ => 0
  | circle l p r => scaledRadiusAux l p r
  | aabb _ _ w h => min w h
  | obb _ _ w h => min w h

def xAxis : Vec := ⟨1, 0⟩

def yAxis : Vec := ⟨0, 1⟩

/-- The closest-vertex fold of CircleCollider._getCandidateAxes: strict
comparison of squared magnitudes starting from `Infinity`, so the first
minimiser in list order wins. -/
def closestOf : Option Vec → List Vec → Option Vec
  | best, [] => best
  | none, v :: vs => closestOf (some v) vs
  | some b, v :: vs =>
      if Vec.magSq v < Vec.magSq b then closestOf (some v) vs else closestOf (some b) vs

/-- CircleCollider._getCandidateAxes against a box: the vector from the
circle's center to the box's closest vertex. -/
def circleBoxAxis (cCenter oCenter : Vec) (hd : Vec × Vec) : Vec :=
  (closestOf none
    [Vec.sub (Vec.add oCenter hd.1) cCenter,
     Vec.sub (Vec.add oCenter hd.2) cCenter,
     Vec.sub (Vec.sub oCenter hd.1) cCenter,
     Vec.sub (Vec.sub oCenter hd.2) cCenter]).getD Vec.zero

/-- `_getCandidateAxes`, per shape and partner. -/
def getCandidateAxes (c other : Collider) : List Vec :=
  match c with
  | point _ _ => []
  | circle _ _ _ =>
      match other with
      | aabb _ _ _ _ => [circleBoxAxis (center c) (center other) (halfDiagonals other)]
      | obb _ _ _ _ => [circleBoxAxis (center c) (center other) (halfDiagonals other)]
      | _ => [Vec.sub (center other) (center c)]
  | aabb _ _ _ _ => [xAxis, yAxis]
  | obb l p w h => [(obbPotentialAxes l p w h).1, (obbPotentialAxes l p w h).2]

/-- deduplicateParallelVectors: keep an axis iff no later axis is parallel
to it. -/
noncomputable def dedupParallel : List Vec → List Vec
  | [] => []
  | v :: vs =>
      if ∃ w ∈ vs, Vec.isParallel v w then dedupParallel vs else v :: dedupParallel vs

/-- CollisionShape._getCandidateAxesForShapes: both shapes' axes, degenerate
zero axes replaced by the world X axis, deduplicated by parallelism. -/
noncomputable def axesForShapes (a b : Collider) : List Vec :=
  dedupParallel
    ((getCandidateAxes a b ++ getCandidateAxes b a).map
      (fun ax => if ax = Vec.zero then xAxis else ax))

/-- The per-axis overlap quantity `r1 + r2 - distanceOfCentersOnAxis` of the
SAT loop in CollisionShape.prototype.collide. -/
noncomputable def overlapOn (a b : Collider) (delta axis : Vec) : ℝ :=
  radiusOnAxis a axis + radiusOnAxis b axis - Vec.mag (Vec.project delta axis)

/-- The axis direction the SAT loop stores for the current best axis: the
projected center delta, or the raw axis when the projection is exactly zero. -/
noncomputable def storedAxis (delta axis : Vec) : Vec :=
  if Vec.project delta axis = Vec.zero then axis else Vec.project delta axis

/-- The SAT loop of CollisionShape.prototype.collide.  The accumulator is
`none` while `smallestOverlap` is still `Infinity` (so any finite overlap
replaces it); at the end a `none` accumulator means the source dereferences
a null `smallestOverlapAxis` and throws, which the embedding reports as
`none`. -/
noncomputable def collideLoop (a b : Collider) (delta : Vec) :
    List Vec → Option (ℝ × Vec) → Option Vec
  | [], none => none
  | [], some (s, ax) => some (Vec.setMag ax (-s))
  | axis :: rest, none =>
      if overlapOn a b delta axis ≤ 0 then some Vec.zero
      else collideLoop a b delta rest (some (overlapOn a b delta axis, storedAxis delta axis))
  | axis :: rest, some (s, ax) =>
      if overlapOn a b delta axis ≤ 0 then some Vec.zero
      else if overlapOn a b delta axis < s then
        collideLoop a b delta rest (some (overlapOn a b delta axis, storedAxis delta axis))
      else collideLoop a b delta rest (some (s, ax))

/-- CollisionShape.prototype.collide.  `none` models the TypeError thrown
when no candidate axis exists. -/
noncomputable def collide (a b : Collider) : Option Vec :=
  collideLoop a b (Vec.sub (center b) (center a)) (axesForShapes a b) none

/-- CollisionShape.prototype.overlap returns true: the computed displacement
exists (no crash) and has a nonzero component. -/
noncomputable def overlapHolds (a b : Collider) : Prop :=
  (collide a b).elim False (fun d => d.x ≠ 0 ∨ d.y ≠ 0)

end Collider

/-- p5 radians(): degrees to radians. -/
def radians (deg : ℝ) : ℝ := deg * (Real.pi / 180)

/-- p5 degrees(): radians to degrees. -/
def degrees (rad : ℝ) : ℝ := rad * (180 / Real.pi)

/-- JavaScript Math.atan2, as the argument of the complex number `x + y i`
(range `(-π, π]`, `atan2 0 0 = 0`, matching JavaScript). -/
def jsAtan2 (y x : ℝ) : ℝ := Complex.arg ⟨x, y⟩

/-- The five collision policies routed through Sprite._collideWith, plus the
`isTouching` tag that the callback guard of _collideWithOne tests for (no
public entry point ever passes it: `isTouching` is an alias of `overlap`). -/
inductive CollisionType where
  | overlap
  | displace
  | collideT
  | bounce
  | bounceOff
  | isTouching
deriving DecidableEq

/-- The movable-entity state the collision engine reads and writes.  Sprite
fields not consulted by the collision paths under verification (animation,
touch flags, friction, …) are omitted; colliders are taken with explicit
dimensions (`getsDimensionsFromSprite = false`). -/
structure Sprite where
  position : Vec
  previousPosition : Vec
  newPosition : Vec
  velocity : Vec
  rotation : ℝ
  scaleX : ℝ
  scaleY : ℝ
  mass : ℝ
  restitution : ℝ
  immovable : Bool
  collider : Collider
  sweptCollider : Collider

/-- Sprite.getDirection: movement direction in degrees. -/
def getDirection (s : Sprite) : ℝ := degrees (jsAtan2 s.velocity.y s.velocity.x)

/-- A unit-scale, unrotated movable sprite of mass 1 and restitution 1, used
to instantiate theorems at concrete inputs. -/
def mkSprite (pos prev vel : Vec) (c sw : Collider) : Sprite :=
  { position := pos, previousPosition := prev, newPosition := pos, velocity := vel,
    rotation := 0, scaleX := 1, scaleY := 1, mass := 1, restitution := 1,
    immovable := false, collider := c, sweptCollider := sw }

/-- A concrete scenario: two overlapping unit circles at rest, centers (0,0)
and (1,0) (colliders' parent transforms already match the positions). -/
def spriteStaticA : Sprite :=
  mkSprite ⟨0, 0⟩ ⟨0, 0⟩ ⟨0, 0⟩ (.circle Transform2D.identity Transform2D.identity 1)
    (.obb Transform2D.identity Transform2D.identity 0 0)

/-- The partner of `spriteStaticA`, a unit circle at (1,0) at rest. -/
def spriteStaticB : Sprite :=
  mkSprite ⟨1, 0⟩ ⟨1, 0⟩ ⟨0, 0⟩ (.circle Transform2D.identity ⟨1, 0, 1, 0, 1, 0⟩ 1)
    (.obb Transform2D.identity Transform2D.identity 0 0)

/-- The tunnelling-regression scenario, post pose-integration: a unit circle
that moved from (0,0) to (100,0) this step (velocity (100,0)), its swept
collider covering the motion (center (50,0), 102 by 2, unrotated). -/
def spriteTunnelA : Sprite :=
  mkSprite ⟨100, 0⟩ ⟨0, 0⟩ ⟨100, 0⟩ (.circle Transform2D.identity ⟨1, 0, 100, 0, 1, 0⟩ 1)
    (.obb ⟨1, 0, 50, 0, 1, 0⟩ Transform2D.identity 102 2)

/-- The stationary unit-circle target at (50,0) of the tunnelling scenario. -/
def spriteTunnelB : Sprite :=
  mkSprite ⟨50, 0⟩ ⟨50, 0⟩ ⟨0, 0⟩ (.circle Transform2D.identity ⟨1, 0, 50, 0, 1, 0⟩ 1)
    (.obb Transform2D.identity Transform2D.identity 0 0)

/-- CollisionShape.setParentTransform with a Sprite parent:
`clear().scale(sx, sy).rotate(radians(rotation)).translate(position)`. -/
def spriteTransform (s : Sprite) : Transform2D :=
  ((Transform2D.identity.scale s.scaleX s.scaleY).rotate (radians s.rotation)).translate
    s.position

/-- CircleCollider.setParentTransform with a Sprite parent uses the larger
of the two scale factors so the circle encloses the sprite. -/
def spriteTransformCircle (s : Sprite) : Transform2D :=
  ((Transform2D.identity.scale (max s.scaleX s.scaleY) (max s.scaleX s.scaleY)).rotate
      (radians s.rotation)).translate s.position

/-- updateFromSprite for a collider with explicit dimensions: refresh the
parent transform from the sprite's pose. -/
def updateFromSprite (c : Collider) (s : Sprite) : Collider :=
  match c with
  | .point l _ => .point l (spriteTransform s)
  | .circle l _ r => .circle l (spriteTransformCircle s) r
  | .aabb l _ w h => .aabb l (spriteTransform s) w h
  | .obb l _ w h => .obb l (spriteTransform s) w h

/-- OrientedBoundingBoxCollider.updateSweptColliderFromSprite: resize the box
to cover the step's motion and rebuild its local transform so its center is
the midpoint of the current and projected positions (the parent transform is
left untouched). -/
def updateSweptColliderFromSprite (c : Collider) (s : Sprite) : Collider :=
  match c with
  | .obb l p _ _ =>
      let sc := l.getScale
      let off := l.apply Vec.zero
      let ctr := p.apply (l.apply Vec.zero)
      let newRot := radians (getDirection s)
      let newCenter := Vec.add s.newPosition (Vec.smul (1 / 2) s.velocity)
      let l' := ((((Transform2D.identity.scale sc.x sc.y).rotate newRot).translate
          off).translate (Vec.smul (-1) ctr)).translate newCenter
      .obb l' p (Vec.mag s.velocity + 2 * (s.collider.radiusOnAxis s.velocity))
        (2 * (s.collider.radiusOnAxis ⟨s.velocity.y, -s.velocity.x⟩))
  | _ => c

/-- Sprite._getBroadPhaseCollider: the swept collider while moving, else the
exact collider. -/
def getBroadPhaseCollider (s : Sprite) : Collider :=
  if Vec.magSq s.velocity > 0 then s.sweptCollider else s.collider

/-- Sprite._findDisplacement's sample count: `Math.max(0.015,
Math.max(minRadius, minRadius) / relativeVelocity)`.  (With a zero relative
velocity the JavaScript division yields `Infinity`; callers guard that case
explicitly.) -/
def substepTimestep (a b : Sprite) : ℝ :=
  max 0.015
    (max a.collider.minRadius b.collider.minRadius / Vec.mag (Vec.sub a.velocity b.velocity))

/-- Modelled from the spec: the sub-step size as the specification words it,
with the MINIMUM of the two shapes' minimum radii ("min(both shapes'
minimum-radius-on-any-axis) / relative speed").  Kept for comparison with
`substepTimestep`, which is what the code computes. -/
def specSubstepTimestep (a b : Sprite) : ℝ :=
  max 0.015
    (min a.collider.minRadius b.collider.minRadius / Vec.mag (Vec.sub a.velocity b.velocity))

/-- Move a sprite to an interpolated position and refresh its collider there
(the `position.add(delta); collider.updateFromSprite(this)` step of the
multi-sampling loop). -/
def spriteAtInterpolated (s : Sprite) (pos : Vec) : Sprite :=
  let s' := { s with position := pos }
  { s' with collider := updateFromSprite s'.collider s' }

/-- The multi-sampling loop of Sprite._findDisplacement, iteration counter
`k` standing for the accumulated interpolation parameter `i = k * timestep`.
Result: `none` = the inner SAT test threw; `some none` = the loop finished
with no hit; `some (some (d, a', b'))` = first sub-step with a nonzero MTV,
with the sprites as the loop leaves them (immovable sprites snapped back to
their final positions, movable ones left at the interpolated position). -/
def substepScan (a b : Sprite) (aOrig bOrig aDelta bDelta : Vec) (ts : ℝ) :
    ℕ → ℕ → Option (Option (Vec × Sprite × Sprite))
  | 0, _ => some none
  | fuel + 1, k =>
      if (k : ℝ) * ts < 1 then
        let a' := spriteAtInterpolated a (Vec.add a.previousPosition (Vec.smul (k : ℝ) aDelta))
        let b' := spriteAtInterpolated b (Vec.add b.previousPosition (Vec.smul (k : ℝ) bDelta))
        match Collider.collide a'.collider b'.collider with
        | none => none
        | some disp =>
            if disp.x ≠ 0 ∨ disp.y ≠ 0 then
              some (some (disp,
                if a.immovable then { a' with position := aOrig } else a',
                if b.immovable then { b' with position := bOrig } else b'))
            else substepScan a b aOrig bOrig aDelta bDelta ts fuel (k + 1)
      else some none

/-- The final exact SAT test of Sprite._findDisplacement: refresh both
colliders from their sprites and collide them. -/
def directCheck (a b : Sprite) : Option (Vec × Sprite × Sprite) :=
  let a' := { a with collider := updateFromSprite a.collider a }
  let b' := { b with collider := updateFromSprite b.collider b }
  (Collider.collide a'.collider b'.collider).map (fun d => (d, a', b'))

/-- Sprite._findDisplacement.  The broad phase compares the two broad-phase
colliders; if they overlap and the adaptive timestep is below 1 (with the
zero-relative-velocity guard made explicit, since JavaScript's division by
zero produces `Infinity, which fails `timestep < 1`), the multi-sampling
loop runs from the previous-step positions; otherwise one exact SAT test is
performed at the current positions.  67 is an upper bound on the loop's
iterations (`timestep ≥ 0.015`), so the fuel never runs out. -/
def findDisplacement (a b : Sprite) : Option (Vec × Sprite × Sprite) :=
  match Collider.collide (getBroadPhaseCollider a) (getBroadPhaseCollider b) with
  | none => none
  | some broadDisp =>
      if broadDisp.x ≠ 0 ∨ broadDisp.y ≠ 0 then
        if Vec.mag (Vec.sub a.velocity b.velocity) ≠ 0 ∧ substepTimestep a b < 1 then
          match substepScan a b a.position b.position
              (Vec.smul (substepTimestep a b) (Vec.sub a.position a.previousPosition))
              (Vec.smul (substepTimestep a b) (Vec.sub b.position b.previousPosition))
              (substepTimestep a b) 67 1 with
          | none => none
          | some (some r) => some r
          | some none => directCheck a b
        else directCheck a b
      else directCheck a b

/-- The two-body velocity response of Sprite._collideWithOne (type 'bounce'),
as the pair of post-collision velocities of the two sprites.  An immovable
sprite gives the pair of effective masses (1, 0) or (0, 1); JavaScript's
division by a zero combined mass (NaN) is idealized by Lean's `x / 0 = 0`
convention. -/
def bounceVelocityPair (a b : Sprite) (displacement : Vec) : Vec × Vec :=
  let aInit := Vec.project a.velocity displacement
  let bInit := Vec.project b.velocity displacement
  let aMass : ℝ := if a.immovable then 1 else if b.immovable then 0 else a.mass
  let bMass : ℝ := if a.immovable then 0 else if b.immovable then 1 else b.mass
  let combinedMass := aMass + bMass
  let k := a.restitution * b.restitution
  let initialMomentum := Vec.add (Vec.smul aMass aInit) (Vec.smul bMass bInit)
  let aFinal := Vec.smul (1 / combinedMass)
    (Vec.add (Vec.smul (bMass * k) (Vec.sub bInit aInit)) initialMomentum)
  let bFinal := Vec.smul (1 / combinedMass)
    (Vec.add (Vec.smul (aMass * k) (Vec.sub aInit bInit)) initialMomentum)
  (Vec.add (Vec.sub a.velocity aInit) aFinal, Vec.add (Vec.sub b.velocity bInit) bFinal)

/-- Sprite._collideWithOne.  Returns whether a collision occurred, the two
sprites as left by the call, and the number of callback invocations (the
caller-supplied callback is modelled by whether one was provided).  `none`
propagates a SAT crash.  Touch-flag bookkeeping is not modelled. -/
def collideWithOne (ty : CollisionType) (a b : Sprite) (callbackProvided : Bool) :
    Option (Bool × Sprite × Sprite × ℕ) :=
  match findDisplacement a b with
  | none => none
  | some (d, a1, b1) =>
      if d.x = 0 ∧ d.y = 0 then some (false, a1, b1, 0)
      else
        let b2 := if ty = .displace ∧ ¬ b.immovable then
            { b1 with position := Vec.sub b1.position d }
          else b1
        let a2 := if (ty = .collideT ∨ ty = .bounce ∨ ty = .bounceOff) ∧ ¬ a.immovable then
            let pos := Vec.add a1.position d
            let moved := { a1 with position := pos, previousPosition := pos, newPosition := pos }
            { moved with collider := updateFromSprite moved.collider moved }
          else a1
        let bEff := if ty = .collideT then { b2 with immovable := true, restitution := 0 }
          else if ty = .bounceOff then { b2 with immovable := true }
          else b2
        let vs := if ty = .collideT ∨ ty = .bounce ∨ ty = .bounceOff then
            bounceVelocityPair a2 bEff d
          else (a2.velocity, bEff.velocity)
        let calls := if callbackProvided ∧ ty ≠ .isTouching then 1 else 0
        some (true, { a2 with velocity := vs.1 }, { b2 with velocity := vs.2 }, calls)

end

end P5

/-!
The quadtree spatial index.  Its arithmetic (halving, `Math.round`,
comparisons) is closed over the rationals, so it is embedded over `ℚ` and
everything is executable.  An entry is an entity identified by an id,
carrying the axis-aligned bounding box its collider reports (`none` when the
entity has no collider yet, which `getIndex` maps to "no quadrant").
-/

namespace QT

/-- The {top, bottom, left, right} part of getBoundingBox (the only part the
quadtree reads). -/
structure BBox where
  top : ℚ
  bottom : ℚ
  left : ℚ
  right : ℚ
deriving DecidableEq

/-- An entity as seen by the quadtree. -/
structure Ent where
  id : ℕ
  collider : Option BBox
deriving DecidableEq

/-- A node's bounds rectangle. -/
structure Rect where
  x : ℚ
  y : ℚ
  width : ℚ
  height : ℚ
deriving DecidableEq

/-- JavaScript Math.round: half-up. -/
def jsRound (q : ℚ) : ℚ := ⌊q + 1 / 2⌋

/-- The four quadrants, in the source's index order 0 = top-right,
1 = top-left, 2 = bottom-left, 3 = bottom-right. -/
inductive Quadrant where
  | tr
  | tl
  | bl
  | br
deriving DecidableEq

/-- Quadtree.prototype.getIndex: the quadrant that entirely contains the
entity's bounding box, or `none` when it straddles a midline or the entity
has no collider. -/
def getIndex (b : Rect) (e : Ent) : Option Quadrant :=
  match e.collider with
  | none => none
  | some cb =>
      let vm := b.x + b.width / 2
      let hm := b.y + b.height / 2
      if cb.left < vm ∧ cb.right < vm then
        if cb.top < hm ∧ cb.bottom < hm then some .tl
        else if cb.top > hm then some .bl
        else none
      else if cb.left > vm then
        if cb.top < hm ∧ cb.bottom < hm then some .tr
        else if cb.top > hm then some .br
        else none
      else none

/-- A quadtree node: either without subnodes, or with its four subnodes
(the source's `nodes` array is empty or holds exactly four). -/
inductive Qtree where
  | leaf (bounds : Rect) (maxObjects maxLevels level : ℕ) (objects : List Ent)
  | parent (bounds : Rect) (maxObjects maxLevels level : ℕ) (objects : List Ent)
      (c0 c1 c2 c3 : Qtree)

namespace Qtree

def bounds : Qtree → Rect
  | leaf b _ _ _ _ => b
  | parent b _ _ _ _ _ _ _ _ => b

def maxLevels : Qtree → ℕ
  | leaf _ _ ml _ _ => ml
  | parent _ _ ml _ _ _ _ _ _ => ml

def objects : Qtree → List Ent
  | leaf _ _ _ _ os => os
  | parent _ _ _ _ os _ _ _ _ => os

/-- Quadtree.prototype.split: the four fresh subnodes with rounded bounds. -/
def splitChildren (b : Rect) (mo ml lv : ℕ) : Qtree × Qtree × Qtree × Qtree :=
  let sw := jsRound (b.width / 2)
  let sh := jsRound (b.height / 2)
  let x := jsRound b.x
  let y := jsRound b.y
  (leaf ⟨x + sw, y, sw, sh⟩ mo ml (lv + 1) [],
   leaf ⟨x, y, sw, sh⟩ mo ml (lv + 1) [],
   leaf ⟨x, y + sh, sw, sh⟩ mo ml (lv + 1) [],
   leaf ⟨x + sw, y + sh, sw, sh⟩ mo ml (lv + 1) [])

/-- One step of the redistribution `while` loop of Quadtree.prototype.insert:
route one stored object into the matching subnode (via the given child
inserter) or keep it at this node. -/
def redistStep (ins : Qtree → Ent → Qtree) (b : Rect)
    (st : List Ent × Qtree × Qtree × Qtree × Qtree) (o : Ent) :
    List Ent × Qtree × Qtree × Qtree × Qtree :=
  match st with
  | (kept, c0, c1, c2, c3) =>
      match getIndex b o with
      | some .tr => (kept, ins c0 o, c1, c2, c3)
      | some .tl => (kept, c0, ins c1 o, c2, c3)
      | some .bl => (kept, c0, c1, ins c2 o, c3)
      | some .br => (kept, c0, c1, c2, ins c3 o)
      | none => (kept ++ [o], c0, c1, c2, c3)

/-- Quadtree.prototype.insert, fuelled (the fuel bounds the descent depth;
on exhaustion the object is stored at the current node, which adequate fuel
never reaches).  Double insertion of an object already stored at the node is
a no-op; routing descends into an existing matching subnode; otherwise the
object is stored here and, on overflow below the depth limit, the node
splits (if needed) and redistributes its objects into fitting subnodes. -/
def insertAux : ℕ → Qtree → Ent → Qtree
  | 0, leaf b mo ml lv os, o => if o ∈ os then leaf b mo ml lv os else leaf b mo ml lv (os ++ [o])
  | 0, parent b mo ml lv os c0 c1 c2 c3, o =>
      if o ∈ os then parent b mo ml lv os c0 c1 c2 c3
      else parent b mo ml lv (os ++ [o]) c0 c1 c2 c3
  | fuel + 1, leaf b mo ml lv os, o =>
      if o ∈ os then leaf b mo ml lv os
      else
        if mo < (os ++ [o]).length ∧ lv < ml then
          let st := (os ++ [o]).foldl (redistStep (insertAux fuel) b)
            ([], splitChildren b mo ml lv)
          parent b mo ml lv st.1 st.2.1 st.2.2.1 st.2.2.2.1 st.2.2.2.2
        else leaf b mo ml lv (os ++ [o])
  | fuel + 1, parent b mo ml lv os c0 c1 c2 c3, o =>
      if o ∈ os then parent b mo ml lv os c0 c1 c2 c3
      else
        match getIndex b o with
        | some .tr => parent b mo ml lv os (insertAux fuel c0 o) c1 c2 c3
        | some .tl => parent b mo ml lv os c0 (insertAux fuel c1 o) c2 c3
        | some .bl => parent b mo ml lv os c0 c1 (insertAux fuel c2 o) c3
        | some .br => parent b mo ml lv os c0 c1 c2 (insertAux fuel c3 o)
        | none =>
            if mo < (os ++ [o]).length ∧ lv < ml then
              let st := (os ++ [o]).foldl (redistStep (insertAux fuel) b)
                ([], c0, c1, c2, c3)
              parent b mo ml lv st.1 st.2.1 st.2.2.1 st.2.2.2.1 st.2.2.2.2
            else parent b mo ml lv (os ++ [o]) c0 c1 c2 c3

/-- Quadtree.prototype.insert (fuel `maxLevels + 1` always suffices for the
descent). -/
def insert (t : Qtree) (o : Ent) : Qtree := insertAux (maxLevels t + 1) t o

/-- Quadtree.prototype.getAll. -/
def getAll : Qtree → List Ent
  | leaf _ _ _ _ os => os
  | parent _ _ _ _ os c0 c1 c2 c3 =>
      os ++ (getAll c0 ++ (getAll c1 ++ (getAll c2 ++ getAll c3)))

/-- All entries reachable from a redistribution state (kept list plus the
four subnodes), in node order. -/
def stAll (st : List Ent × Qtree × Qtree × Qtree × Qtree) : List Ent :=
  st.1 ++ (getAll st.2.1 ++ (getAll st.2.2.1 ++ (getAll st.2.2.2.1 ++ getAll st.2.2.2.2)))

/-- Quadtree.prototype.retrieve: the objects stored here, plus those of the
matching subnode — or of every subnode when the query straddles. -/
def retrieve : Qtree → Ent → List Ent
  | leaf _ _ _ _ os, _ => os
  | parent b _ _ _ os c0 c1 c2 c3, q =>
      match getIndex b q with
      | some .tr => os ++ retrieve c0 q
      | some .tl => os ++ retrieve c1 q
      | some .bl => os ++ retrieve c2 q
      | some .br => os ++ retrieve c3 q
      | none => os ++ (retrieve c0 q ++ (retrieve c1 q ++ (retrieve c2 q ++ retrieve c3 q)))

/-- Quadtree.prototype.clear: drop all objects and subnodes. -/
def clear (t : Qtree) : Qtree :=
  leaf (bounds t) (match t with | leaf _ mo _ _ _ => mo | parent _ mo _ _ _ _ _ _ _ => mo)
    (maxLevels t) (match t with | leaf _ _ _ lv _ => lv | parent _ _ _ lv _ _ _ _ _ => lv) []

/-- Quadtree.prototype.cleanup: extract all objects, clear, reinsert. -/
def cleanup (t : Qtree) : Qtree := (getAll t).foldl insert (clear t)

/-- Closed-rectangle intersection of two bounding boxes. -/
def boxesIntersect (p q : BBox) : Prop :=
  p.left ≤ q.right ∧ q.left ≤ p.right ∧ p.top ≤ q.bottom ∧ q.top ≤ p.bottom

instance : ∀ p q, Decidable (boxesIntersect p q) := by
  intro p q; unfold boxesIntersect; infer_instance

/-- Well-formedness: every entry stored anywhere below a subnode fits that
subnode's quadrant of this node's bounds.  This is the routing invariant
that `insert` maintains and `retrieve`'s pruning relies on. -/
def WF : Qtree → Prop
  | leaf _ _ _ _ _ => True
  | parent b _ _ _ _ c0 c1 c2 c3 =>
      (∀ e ∈ getAll c0, getIndex b e = some .tr) ∧
      (∀ e ∈ getAll c1, getIndex b e = some .tl) ∧
      (∀ e ∈ getAll c2, getIndex b e = some .bl) ∧
      (∀ e ∈ getAll c3, getIndex b e = some .br) ∧
      WF c0 ∧ WF c1 ∧ WF c2 ∧ WF c3

/-- Quadtrees reachable from an empty node by a sequence of insertions. -/
inductive Built : Qtree → Prop where
  | empty (b : Rect) (mo ml lv : ℕ) : Built (leaf b mo ml lv [])
  | step (t : Qtree) (o : Ent) : Built t → Built (insert t o)

/-- The per-child routing conditions and well-formedness of a redistribution
state (what `WF` requires of a parent node built from it). -/
def stWF (b : Rect) (st : List Ent × Qtree × Qtree × Qtree × Qtree) : Prop :=
  (∀ e ∈ getAll st.2.1, getIndex b e = some .tr) ∧
  (∀ e ∈ getAll st.2.2.1, getIndex b e = some .tl) ∧
  (∀ e ∈ getAll st.2.2.2.1, getIndex b e = some .bl) ∧
  (∀ e ∈ getAll st.2.2.2.2, getIndex b e = some .br) ∧
  WF st.2.1 ∧ WF st.2.2.1 ∧ WF st.2.2.2.1 ∧ WF st.2.2.2.2

end Qtree

end QT

/-! ## Theorems -/

namespace P5

namespace Vec

theorem eq_zero_iff {v : Vec} : v = zero ↔ v.x = 0 ∧ v.y = 0 := by
  constructor
  · rintro rfl; exact ⟨rfl, rfl⟩
  · rintro ⟨hx, hy⟩; ext <;> simp [zero, hx, hy]

theorem ne_zero_iff {v : Vec} : (v.x ≠ 0 ∨ v.y ≠ 0) ↔ v ≠ zero := by
  constructor
  · rintro h rfl; rcases h with h | h <;> exact h rfl
  · intro h; by_contra hc; push_neg at hc; exact h (eq_zero_iff.mpr hc)

theorem mag_nonneg (v : Vec) : 0 ≤ mag v := Real.sqrt_nonneg _

theorem mag_eq_zero_iff {v : Vec} : mag v = 0 ↔ v = zero := by
  rw [mag, Real.sqrt_eq_zero (add_nonneg (mul_self_nonneg _) (mul_self_nonneg _))]
  constructor
  · intro h; rw [eq_zero_iff]; constructor <;> nlinarith
  · intro h; rw [h]; simp [zero]

theorem mag_zero_vec : mag zero = 0 := mag_eq_zero_iff.mpr rfl

theorem mag_pos_of_ne {v : Vec} (h : v ≠ zero) : 0 < mag v :=
  lt_of_le_of_ne (mag_nonneg v) (fun hc => h (mag_eq_zero_iff.mp hc.symm))

theorem mag_smul (k : ℝ) (v : Vec) : mag (smul k v) = |k| * mag v := by
  rw [mag, mag, smul]
  have h : k * v.x * (k * v.x) + k * v.y * (k * v.y) = k * k * (v.x * v.x + v.y * v.y) := by
    ring
  simp only [h]
  rw [Real.sqrt_mul (mul_self_nonneg k), Real.sqrt_mul_self_eq_abs]

theorem mag_mk_x (x : ℝ) : mag ⟨x, 0⟩ = |x| := by
  rw [mag]
  have h : x * x + (0 : ℝ) * 0 = x * x := by ring
  simp only [h]
  exact Real.sqrt_mul_self_eq_abs x

theorem smul_smul_eq (a b : ℝ) (v : Vec) : smul a (smul b v) = smul (a * b) v := by
  ext <;> simp [smul] <;> ring

theorem smul_eq_zero_iff {k : ℝ} {v : Vec} : smul k v = zero ↔ k = 0 ∨ v = zero := by
  simp only [eq_zero_iff, smul, mul_eq_zero]
  tauto

theorem smul_zero_coeff (v : Vec) : smul 0 v = zero := by ext <;> simp [smul, zero]

theorem dot_self_pos {v : Vec} (h : v ≠ zero) : 0 < dot v v := by
  rcases not_and_or.mp (fun hc => h (eq_zero_iff.mpr hc)) with hx | hy
  · have h1 : 0 < v.x * v.x := mul_self_pos.mpr hx
    have h2 : 0 ≤ v.y * v.y := mul_self_nonneg _
    unfold dot; linarith
  · have h1 : 0 < v.y * v.y := mul_self_pos.mpr hy
    have h2 : 0 ≤ v.x * v.x := mul_self_nonneg _
    unfold dot; linarith

theorem dot_smul_right (a : Vec) (k : ℝ) (b : Vec) : dot a (smul k b) = k * dot a b := by
  unfold dot smul; ring

theorem dot_smul_left (k : ℝ) (a b : Vec) : dot (smul k a) b = k * dot a b := by
  unfold dot smul; ring

theorem smul_one_vec (v : Vec) : smul 1 v = v := by ext <;> simp [smul]

theorem dot_zero_left (b : Vec) : dot zero b = 0 := by simp [dot, zero]

theorem project_zero_left (b : Vec) : project zero b = zero := by
  rw [project, dot_zero_left, zero_div, smul_zero_coeff]

theorem project_parallel {delta : Vec} (k : ℝ) (hd : delta ≠ zero) (hk : k ≠ 0) :
    project delta (smul k delta) = delta := by
  have hD : dot delta delta ≠ 0 := ne_of_gt (dot_self_pos hd)
  unfold project
  rw [dot_smul_right, dot_smul_left, dot_smul_right, smul_smul_eq]
  have h : k * dot delta delta / (k * (k * dot delta delta)) * k = 1 := by
    field_simp
    ring
  rw [h, smul_one_vec]

theorem setMag_of_ne {v : Vec} (m : ℝ) (h : mag v ≠ 0) : setMag v m = smul (m / mag v) v :=
  if_neg h

theorem sub_zero_vec (v : Vec) : sub v zero = v := by ext <;> simp [sub, zero]

theorem sub_self_vec (v : Vec) : sub v v = zero := by ext <;> simp [sub, zero]

theorem project_sub (u w d : Vec) :
    project (sub u w) d = sub (project u d) (project w d) := by
  unfold project dot sub smul
  ext <;> simp only <;> ring

theorem project_project (v d : Vec) (hd : d ≠ zero) :
    project (project v d) d = project v d := by
  have hD : dot d d ≠ 0 := ne_of_gt (dot_self_pos hd)
  unfold project
  rw [dot_smul_left]
  congr 1
  field_simp

theorem sub_comm_zero {a b : Vec} : sub a b = zero ↔ sub b a = zero := by
  simp only [eq_zero_iff, sub]
  constructor <;> rintro ⟨h1, h2⟩ <;> constructor <;> linarith

theorem sub_rev (a b : Vec) : sub a b = smul (-1) (sub b a) := by
  ext <;> simp [sub, smul]

theorem isParallel_xAxis_xAxis : isParallel ⟨1, 0⟩ ⟨1, 0⟩ := by
  unfold isParallel
  right; left
  constructor <;> · show |(0 : ℝ)| < 1 / 10 ^ 14; norm_num

theorem isParallel_neg_self (v : Vec) : isParallel v (smul (-1) v) := by
  unfold isParallel
  by_cases hx : v.x = 0
  · left; constructor <;> norm_num [smul, hx]
  · by_cases hy : v.y = 0
    · right; left; constructor <;> norm_num [smul, hy]
    · right; right
      refine ⟨by norm_num [smul, hx], by norm_num [smul, hy], ?_⟩
      have h : v.x / (smul (-1) v).x - v.y / (smul (-1) v).y = 0 := by
        show v.x / (-1 * v.x) - v.y / (-1 * v.y) = 0
        field_simp
      rw [h]
      norm_num

end Vec

namespace Transform2D

theorem identity_translate (v : Vec) :
    Transform2D.identity.translate v = ⟨1, 0, v.x, 0, 1, v.y⟩ := by
  ext <;> simp [translate, mult, identity]

theorem apply_unit (tx ty : ℝ) (v : Vec) :
    Transform2D.apply ⟨1, 0, tx, 0, 1, ty⟩ v = ⟨v.x + tx, v.y + ty⟩ := by
  ext <;> simp [apply]

theorem apply_identity (v : Vec) : Transform2D.identity.apply v = v := by
  ext <;> simp [apply, identity]

theorem scale_one_one : Transform2D.identity.scale 1 1 = Transform2D.identity := by
  ext <;> simp [scale, mult, identity]

theorem translate_unit (a b : ℝ) (v : Vec) :
    Transform2D.translate ⟨1, 0, a, 0, 1, b⟩ v = ⟨1, 0, a + v.x, 0, 1, b + v.y⟩ := by
  ext <;> simp [translate, mult]

theorem rotate_zero (t : Transform2D) : t.rotate 0 = t := by
  unfold rotate
  rw [Real.cos_zero, Real.sin_zero]
  ext <;> simp [mult]

theorem getScale_identity : Transform2D.identity.getScale = ⟨1, 1⟩ := by
  unfold getScale identity
  ext <;> simp

end Transform2D

theorem radians_zero : radians 0 = 0 := by unfold radians; ring

theorem radians_degrees (θ : ℝ) : radians (degrees θ) = θ := by
  unfold radians degrees
  field_simp

theorem jsAtan2_zero_pos {x : ℝ} (hx : 0 ≤ x) : jsAtan2 0 x = 0 := by
  unfold jsAtan2
  have h : (⟨x, 0⟩ : ℂ) = (x : ℂ) := by
    apply Complex.ext <;> simp
  rw [h]
  exact Complex.arg_ofReal_of_nonneg hx

theorem spriteTransform_unit (s : Sprite) (h1 : s.scaleX = 1) (h2 : s.scaleY = 1)
    (h3 : s.rotation = 0) :
    spriteTransform s = ⟨1, 0, s.position.x, 0, 1, s.position.y⟩ := by
  unfold spriteTransform
  rw [h1, h2, h3, radians_zero, Transform2D.scale_one_one, Transform2D.rotate_zero,
    Transform2D.identity_translate]

theorem spriteTransformCircle_unit (s : Sprite) (h1 : s.scaleX = 1) (h2 : s.scaleY = 1)
    (h3 : s.rotation = 0) :
    spriteTransformCircle s = ⟨1, 0, s.position.x, 0, 1, s.position.y⟩ := by
  unfold spriteTransformCircle
  rw [h1, h2, h3, radians_zero, max_self, Transform2D.scale_one_one,
    Transform2D.rotate_zero, Transform2D.identity_translate]

namespace Collider

theorem center_circle_unit (tx ty r : ℝ) :
    center (.circle Transform2D.identity ⟨1, 0, tx, 0, 1, ty⟩ r) = ⟨tx, ty⟩ := by
  show Transform2D.apply ⟨1, 0, tx, 0, 1, ty⟩ (Transform2D.identity.apply Vec.zero) = _
  rw [Transform2D.apply_identity, Transform2D.apply_unit]
  ext <;> simp [Vec.zero]

theorem scaledRadiusAux_unit (tx ty r : ℝ) :
    scaledRadiusAux Transform2D.identity ⟨1, 0, tx, 0, 1, ty⟩ r = |r| := by
  unfold scaledRadiusAux
  rw [Transform2D.apply_identity, Transform2D.apply_identity, Transform2D.apply_unit,
    Transform2D.apply_unit]
  have h : Vec.sub ⟨(⟨r, 0⟩ : Vec).x + tx, (⟨r, 0⟩ : Vec).y + ty⟩
      ⟨Vec.zero.x + tx, Vec.zero.y + ty⟩ = ⟨r, 0⟩ := by
    ext <;> simp [Vec.sub, Vec.zero]
  rw [h, Vec.mag_mk_x]

theorem minRadius_circle (l p : Transform2D) (r : ℝ) :
    minRadius (.circle l p r) = scaledRadiusAux l p r := rfl

end Collider

theorem bounce_eval (a b : Sprite) (d : Vec) (m : ℝ)
    (hma : a.mass = m) (hmb : b.mass = m) (hm : 0 < m)
    (hia : a.immovable = false) (hib : b.immovable = false)
    (hr : a.restitution * b.restitution = 1)
    (hvb : b.velocity = Vec.zero) :
    bounceVelocityPair a b d =
      (Vec.sub a.velocity (Vec.project a.velocity d), Vec.project a.velocity d) := by
  unfold bounceVelocityPair
  rw [hia, hib, hvb, hma, hmb, hr, Vec.project_zero_left]
  simp only [Bool.false_eq_true, if_false, ite_false]
  have hm' : m ≠ 0 := ne_of_gt hm
  rw [Prod.mk.injEq]
  constructor <;>
    · ext <;> simp only [Vec.add, Vec.sub, Vec.smul, Vec.zero] <;> field_simp <;> ring

/-- C5: a bounce between two movable entities of equal (positive) mass with
restitution product 1, where entity B is stationary: entity A's
post-collision normal-component velocity is zero, B's equals A's original
normal component, and both entities' components perpendicular to the
collision normal are unchanged. -/
theorem C5_bounce_equal_mass_transfer (a b : Sprite) (d : Vec) (m : ℝ)
    (hma : a.mass = m) (hmb : b.mass = m) (hm : 0 < m)
    (hia : a.immovable = false) (hib : b.immovable = false)
    (hr : a.restitution * b.restitution = 1)
    (hvb : b.velocity = Vec.zero) (hd : d ≠ Vec.zero) :
    Vec.project (bounceVelocityPair a b d).1 d = Vec.zero ∧
    Vec.project (bounceVelocityPair a b d).2 d = Vec.project a.velocity d ∧
    Vec.sub (bounceVelocityPair a b d).1 (Vec.project (bounceVelocityPair a b d).1 d) =
      Vec.sub a.velocity (Vec.project a.velocity d) ∧
    Vec.sub (bounceVelocityPair a b d).2 (Vec.project (bounceVelocityPair a b d).2 d) =
      Vec.sub b.velocity (Vec.project b.velocity d) := by
  rw [bounce_eval a b d m hma hmb hm hia hib hr hvb]
  simp only
  have h1 : Vec.project (Vec.sub a.velocity (Vec.project a.velocity d)) d = Vec.zero := by
    rw [Vec.project_sub, Vec.project_project _ _ hd, Vec.sub_self_vec]
  refine ⟨h1, Vec.project_project _ _ hd, ?_, ?_⟩
  · rw [h1, Vec.sub_zero_vec]
  · rw [Vec.project_project _ _ hd, Vec.sub_self_vec, hvb, Vec.project_zero_left,
      Vec.sub_self_vec]

/-- Witness for C5: entity A moving at (3,0) toward a stationary entity B,
collision normal (1,0); A's post-collision normal component is zero. -/
theorem C5_bounce_equal_mass_transfer_witness :
    Vec.project
      (bounceVelocityPair
        (mkSprite ⟨0, 0⟩ ⟨0, 0⟩ ⟨3, 0⟩
          (.circle Transform2D.identity Transform2D.identity 1)
          (.obb Transform2D.identity Transform2D.identity 0 0))
        (mkSprite ⟨2, 0⟩ ⟨2, 0⟩ ⟨0, 0⟩
          (.circle Transform2D.identity Transform2D.identity 1)
          (.obb Transform2D.identity Transform2D.identity 0 0))
        ⟨1, 0⟩).1 ⟨1, 0⟩ = Vec.zero ∧
    Vec.project
      (bounceVelocityPair
        (mkSprite ⟨0, 0⟩ ⟨0, 0⟩ ⟨3, 0⟩
          (.circle Transform2D.identity Transform2D.identity 1)
          (.obb Transform2D.identity Transform2D.identity 0 0))
        (mkSprite ⟨2, 0⟩ ⟨2, 0⟩ ⟨0, 0⟩
          (.circle Transform2D.identity Transform2D.identity 1)
          (.obb Transform2D.identity Transform2D.identity 0 0))
        ⟨1, 0⟩).2 ⟨1, 0⟩ =
      Vec.project
        (mkSprite ⟨0, 0⟩ ⟨0, 0⟩ ⟨3, 0⟩
          (.circle Transform2D.identity Transform2D.identity 1)
          (.obb Transform2D.identity Transform2D.identity 0 0)).velocity ⟨1, 0⟩ := by
  have h := C5_bounce_equal_mass_transfer
    (mkSprite ⟨0, 0⟩ ⟨0, 0⟩ ⟨3, 0⟩
      (.circle Transform2D.identity Transform2D.identity 1)
      (.obb Transform2D.identity Transform2D.identity 0 0))
    (mkSprite ⟨2, 0⟩ ⟨2, 0⟩ ⟨0, 0⟩
      (.circle Transform2D.identity Transform2D.identity 1)
      (.obb Transform2D.identity Transform2D.identity 0 0))
    ⟨1, 0⟩ 1 rfl rfl one_pos rfl rfl (by simp [mkSprite]) rfl
    (by rw [Ne, Vec.eq_zero_iff]; simp)
  exact ⟨h.1, h.2.1⟩

/-- C3 counterexample: two circle entities with minimum radii 1 and 3 at
relative speed 100.  The code's sub-step size (max of the two minimum radii)
is 3/100, while the size the claim specifies (min of the two) would be the
0.015 floor: the two disagree. -/
theorem C3_min_vs_max_counterexample :
    substepTimestep
        (mkSprite ⟨0, 0⟩ ⟨0, 0⟩ ⟨100, 0⟩
          (.circle Transform2D.identity Transform2D.identity 1)
          (.obb Transform2D.identity Transform2D.identity 0 0))
        (mkSprite ⟨50, 0⟩ ⟨50, 0⟩ ⟨0, 0⟩
          (.circle Transform2D.identity Transform2D.identity 3)
          (.obb Transform2D.identity Transform2D.identity 0 0)) = 3 / 100 ∧
    specSubstepTimestep
        (mkSprite ⟨0, 0⟩ ⟨0, 0⟩ ⟨100, 0⟩
          (.circle Transform2D.identity Transform2D.identity 1)
          (.obb Transform2D.identity Transform2D.identity 0 0))
        (mkSprite ⟨50, 0⟩ ⟨50, 0⟩ ⟨0, 0⟩
          (.circle Transform2D.identity Transform2D.identity 3)
          (.obb Transform2D.identity Transform2D.identity 0 0)) = 3 / 200 ∧
    (3 / 100 : ℝ) ≠ 3 / 200 := by
  have hr1 : Collider.minRadius (.circle Transform2D.identity Transform2D.identity 1) = 1 := by
    rw [Collider.minRadius_circle]
    have := Collider.scaledRadiusAux_unit 0 0 1
    rw [show (⟨1, 0, 0, 0, 1, 0⟩ : Transform2D) = Transform2D.identity from rfl] at this
    rw [this]; norm_num
  have hr3 : Collider.minRadius (.circle Transform2D.identity Transform2D.identity 3) = 3 := by
    rw [Collider.minRadius_circle]
    have := Collider.scaledRadiusAux_unit 0 0 3
    rw [show (⟨1, 0, 0, 0, 1, 0⟩ : Transform2D) = Transform2D.identity from rfl] at this
    rw [this]; norm_num
  have hv : Vec.mag (Vec.sub (⟨100, 0⟩ : Vec) ⟨0, 0⟩) = 100 := by
    rw [show Vec.sub (⟨100, 0⟩ : Vec) ⟨0, 0⟩ = ⟨100, 0⟩ by ext <;> simp [Vec.sub]]
    rw [Vec.mag_mk_x]; norm_num
  refine ⟨?_, ?_, by norm_num⟩
  · unfold substepTimestep
    simp only [mkSprite]
    rw [hr1, hr3, hv]
    rw [max_eq_right (by norm_num : (1 : ℝ) ≤ 3)]
    rw [max_eq_right (by norm_num : (0.015 : ℝ) ≤ 3 / 100)]
  · unfold specSubstepTimestep
    simp only [mkSprite]
    rw [hr1, hr3, hv]
    rw [min_eq_left (by norm_num : (1 : ℝ) ≤ 3)]
    rw [max_eq_left (by norm_num : (1 : ℝ) / 100 ≤ 0.015)]
    norm_num

/-- C3 amended: in the swept narrow phase the sub-step size equals
`max(0.015, max(both shapes' minimum radius) / relative speed)` — the code
takes the larger of the two minimum radii, not the smaller as the spec says.
The 0.015 floor still bounds the number of sub-steps by a constant: fewer
than 67 samples are ever taken. -/
theorem C3_substep_size_and_bound (a b : Sprite)
    (_h : Vec.mag (Vec.sub a.velocity b.velocity) ≠ 0) :
    substepTimestep a b =
      max 0.015 (max a.collider.minRadius b.collider.minRadius /
        Vec.mag (Vec.sub a.velocity b.velocity)) ∧
    (3 / 200 : ℝ) ≤ substepTimestep a b ∧
    ∀ k : ℕ, (k : ℝ) * substepTimestep a b < 1 → k ≤ 66 := by
  refine ⟨rfl, ?_, ?_⟩
  · exact le_trans (by norm_num) (le_max_left _ _)
  · intro k hk
    by_contra hnk
    push_neg at hnk
    have h67 : (67 : ℝ) ≤ (k : ℝ) := by exact_mod_cast hnk
    have hts : (3 / 200 : ℝ) ≤ substepTimestep a b :=
      le_trans (by norm_num) (le_max_left _ _)
    have hpos : (0 : ℝ) ≤ (k : ℝ) := Nat.cast_nonneg k
    nlinarith

/-- Witness for the amended C3: the same concrete pair, nonzero relative
speed discharged by evaluation. -/
theorem C3_substep_size_and_bound_witness :
    (3 / 200 : ℝ) ≤ substepTimestep
      (mkSprite ⟨0, 0⟩ ⟨0, 0⟩ ⟨100, 0⟩
        (.circle Transform2D.identity Transform2D.identity 1)
        (.obb Transform2D.identity Transform2D.identity 0 0))
      (mkSprite ⟨50, 0⟩ ⟨50, 0⟩ ⟨0, 0⟩
        (.circle Transform2D.identity Transform2D.identity 3)
        (.obb Transform2D.identity Transform2D.identity 0 0)) :=
  (C3_substep_size_and_bound _ _ (by
    simp only [mkSprite]
    rw [show Vec.sub (⟨100, 0⟩ : Vec) ⟨0, 0⟩ = ⟨100, 0⟩ by ext <;> simp [Vec.sub]]
    rw [Vec.mag_mk_x]
    norm_num)).2.1

namespace Collider

/-- C10: for two point colliders both shapes contribute no candidate axes,
so the candidate-axis set is empty, the SAT loop never runs, and `collide`
dereferences the null smallest-overlap axis: point-vs-point `collide` does
not return a vector (modelled by `none`), for every pair of transforms. -/
theorem radiusOnAxis_circle (l p : Transform2D) (r : ℝ) (axis : Vec) :
    radiusOnAxis (.circle l p r) axis = scaledRadiusAux l p r := rfl

theorem scaledRadiusAux_nonneg (l p : Transform2D) (r : ℝ) : 0 ≤ scaledRadiusAux l p r :=
  Vec.mag_nonneg _

theorem collideLoop_single (a b : Collider) (delta axis : Vec) :
    collideLoop a b delta [axis] none =
      if overlapOn a b delta axis ≤ 0 then some Vec.zero
      else some (Vec.setMag (storedAxis delta axis) (-(overlapOn a b delta axis))) := by
  by_cases h : overlapOn a b delta axis ≤ 0 <;> simp [collideLoop, h]

theorem getCandidateAxes_circle_circle (l1 p1 : Transform2D) (r1 : ℝ)
    (l2 p2 : Transform2D) (r2 : ℝ) :
    getCandidateAxes (.circle l1 p1 r1) (.circle l2 p2 r2) =
      [Vec.sub (center (.circle l2 p2 r2)) (center (.circle l1 p1 r1))] := rfl

theorem dedupParallel_pair {a b : Vec} (h : Vec.isParallel a b) :
    dedupParallel [a, b] = [b] := by
  show dedupParallel (a :: [b]) = [b]
  simp only [dedupParallel]
  split_ifs with h1 h2 h2
  · exact absurd h2 (by simp)
  · rfl
  · exact absurd ⟨b, by simp, h⟩ h1
  · exact absurd ⟨b, by simp, h⟩ h1

theorem axesForShapes_circle_circle (l1 p1 : Transform2D) (r1 : ℝ)
    (l2 p2 : Transform2D) (r2 : ℝ) :
    axesForShapes (.circle l1 p1 r1) (.circle l2 p2 r2) =
      if Vec.sub (center (.circle l2 p2 r2)) (center (.circle l1 p1 r1)) = Vec.zero
      then [xAxis]
      else [Vec.sub (center (.circle l1 p1 r1)) (center (.circle l2 p2 r2))] := by
  unfold axesForShapes
  rw [getCandidateAxes_circle_circle l1 p1 r1 l2 p2 r2,
    getCandidateAxes_circle_circle l2 p2 r2 l1 p1 r1]
  by_cases hd : Vec.sub (center (.circle l2 p2 r2)) (center (.circle l1 p1 r1)) = Vec.zero
  · have hd' : Vec.sub (center (.circle l1 p1 r1)) (center (.circle l2 p2 r2)) = Vec.zero :=
      Vec.sub_comm_zero.mpr hd
    rw [if_pos hd]
    simp only [List.cons_append, List.nil_append, List.map_cons, List.map_nil,
      if_pos hd, if_pos hd']
    exact dedupParallel_pair Vec.isParallel_xAxis_xAxis
  · have hd' : Vec.sub (center (.circle l1 p1 r1)) (center (.circle l2 p2 r2)) ≠ Vec.zero :=
      fun hc => hd (Vec.sub_comm_zero.mpr hc)
    rw [if_neg hd]
    simp only [List.cons_append, List.nil_append, List.map_cons, List.map_nil,
      if_neg hd, if_neg hd']
    refine dedupParallel_pair ?_
    rw [Vec.sub_rev (center (.circle l1 p1 r1)) (center (.circle l2 p2 r2))]
    exact Vec.isParallel_neg_self _

theorem collide_circle_sep (l1 p1 : Transform2D) (r1 : ℝ) (l2 p2 : Transform2D) (r2 : ℝ)
    (h : scaledRadiusAux l1 p1 r1 + scaledRadiusAux l2 p2 r2 -
      Vec.mag (Vec.sub (center (.circle l2 p2 r2)) (center (.circle l1 p1 r1))) ≤ 0) :
    collide (.circle l1 p1 r1) (.circle l2 p2 r2) = some Vec.zero := by
  unfold collide
  rw [axesForShapes_circle_circle]
  by_cases hd : Vec.sub (center (.circle l2 p2 r2)) (center (.circle l1 p1 r1)) = Vec.zero
  · rw [if_pos hd, collideLoop_single, if_pos]
    unfold overlapOn
    rw [radiusOnAxis_circle, radiusOnAxis_circle, hd, Vec.project_zero_left,
      Vec.mag_zero_vec]
    rw [hd, Vec.mag_zero_vec] at h
    exact h
  · rw [if_neg hd, collideLoop_single, if_pos]
    unfold overlapOn
    rw [radiusOnAxis_circle, radiusOnAxis_circle,
      Vec.sub_rev (center (.circle l1 p1 r1)) (center (.circle l2 p2 r2)),
      Vec.project_parallel (-1) hd (by norm_num)]
    exact h

theorem collide_circle_hit_deg (l1 p1 : Transform2D) (r1 : ℝ) (l2 p2 : Transform2D) (r2 : ℝ)
    (hd : Vec.sub (center (.circle l2 p2 r2)) (center (.circle l1 p1 r1)) = Vec.zero)
    (h : 0 < scaledRadiusAux l1 p1 r1 + scaledRadiusAux l2 p2 r2) :
    collide (.circle l1 p1 r1) (.circle l2 p2 r2) =
      some ⟨-(scaledRadiusAux l1 p1 r1 + scaledRadiusAux l2 p2 r2), 0⟩ := by
  unfold collide
  rw [axesForShapes_circle_circle, if_pos hd, collideLoop_single]
  have hov : overlapOn (.circle l1 p1 r1) (.circle l2 p2 r2)
      (Vec.sub (center (.circle l2 p2 r2)) (center (.circle l1 p1 r1))) xAxis =
      scaledRadiusAux l1 p1 r1 + scaledRadiusAux l2 p2 r2 := by
    unfold overlapOn
    rw [radiusOnAxis_circle, radiusOnAxis_circle, hd, Vec.project_zero_left,
      Vec.mag_zero_vec]
    ring
  rw [hov, if_neg (by linarith)]
  have hst : storedAxis (Vec.sub (center (.circle l2 p2 r2)) (center (.circle l1 p1 r1)))
      xAxis = xAxis := by
    unfold storedAxis
    rw [hd, Vec.project_zero_left, if_pos rfl]
  rw [hst]
  have hmx : Vec.mag xAxis = 1 := by
    show Vec.mag ⟨1, 0⟩ = 1
    rw [Vec.mag_mk_x]; norm_num
  rw [Vec.setMag_of_ne _ (by rw [hmx]; norm_num), hmx]
  congr 1
  ext <;> simp [Vec.smul, xAxis]

theorem collide_circle_hit (l1 p1 : Transform2D) (r1 : ℝ) (l2 p2 : Transform2D) (r2 : ℝ)
    (hd : Vec.sub (center (.circle l2 p2 r2)) (center (.circle l1 p1 r1)) ≠ Vec.zero)
    (h : 0 < scaledRadiusAux l1 p1 r1 + scaledRadiusAux l2 p2 r2 -
      Vec.mag (Vec.sub (center (.circle l2 p2 r2)) (center (.circle l1 p1 r1)))) :
    collide (.circle l1 p1 r1) (.circle l2 p2 r2) =
      some (Vec.smul
        (-(scaledRadiusAux l1 p1 r1 + scaledRadiusAux l2 p2 r2 -
            Vec.mag (Vec.sub (center (.circle l2 p2 r2)) (center (.circle l1 p1 r1)))) /
          Vec.mag (Vec.sub (center (.circle l2 p2 r2)) (center (.circle l1 p1 r1))))
        (Vec.sub (center (.circle l2 p2 r2)) (center (.circle l1 p1 r1)))) := by
  unfold collide
  rw [axesForShapes_circle_circle, if_neg hd, collideLoop_single]
  have hproj : Vec.project (Vec.sub (center (.circle l2 p2 r2)) (center (.circle l1 p1 r1)))
      (Vec.sub (center (.circle l1 p1 r1)) (center (.circle l2 p2 r2))) =
      Vec.sub (center (.circle l2 p2 r2)) (center (.circle l1 p1 r1)) := by
    rw [Vec.sub_rev (center (.circle l1 p1 r1)) (center (.circle l2 p2 r2))]
    exact Vec.project_parallel (-1) hd (by norm_num)
  have hov : overlapOn (.circle l1 p1 r1) (.circle l2 p2 r2)
      (Vec.sub (center (.circle l2 p2 r2)) (center (.circle l1 p1 r1)))
      (Vec.sub (center (.circle l1 p1 r1)) (center (.circle l2 p2 r2))) =
      scaledRadiusAux l1 p1 r1 + scaledRadiusAux l2 p2 r2 -
        Vec.mag (Vec.sub (center (.circle l2 p2 r2)) (center (.circle l1 p1 r1))) := by
    unfold overlapOn
    rw [radiusOnAxis_circle, radiusOnAxis_circle, hproj]
  rw [hov, if_neg (by linarith)]
  have hst : storedAxis (Vec.sub (center (.circle l2 p2 r2)) (center (.circle l1 p1 r1)))
      (Vec.sub (center (.circle l1 p1 r1)) (center (.circle l2 p2 r2))) =
      Vec.sub (center (.circle l2 p2 r2)) (center (.circle l1 p1 r1)) := by
    unfold storedAxis
    rw [hproj, if_neg hd]
  rw [hst, Vec.setMag_of_ne _ (fun hc => hd (Vec.mag_eq_zero_iff.mp hc))]

theorem sub_center_unit (x1 y1 r1 x2 y2 r2 : ℝ) :
    Vec.sub (center (.circle Transform2D.identity ⟨1, 0, x2, 0, 1, y2⟩ r2))
      (center (.circle Transform2D.identity ⟨1, 0, x1, 0, 1, y1⟩ r1)) =
      ⟨x2 - x1, y2 - y1⟩ := by
  rw [center_circle_unit, center_circle_unit]
  ext <;> simp [Vec.sub]

theorem collide_unit_x_sep (x1 x2 r1 r2 : ℝ) (h1 : 0 ≤ r1) (h2 : 0 ≤ r2)
    (h : r1 + r2 ≤ |x2 - x1|) :
    collide (.circle Transform2D.identity ⟨1, 0, x1, 0, 1, 0⟩ r1)
      (.circle Transform2D.identity ⟨1, 0, x2, 0, 1, 0⟩ r2) = some Vec.zero := by
  apply collide_circle_sep
  rw [sub_center_unit]
  rw [show (⟨x2 - x1, 0 - 0⟩ : Vec) = ⟨x2 - x1, 0⟩ by norm_num]
  rw [Vec.mag_mk_x, scaledRadiusAux_unit, scaledRadiusAux_unit,
    abs_of_nonneg h1, abs_of_nonneg h2]
  linarith

theorem collide_unit_x_hit (x1 x2 r1 r2 : ℝ) (h1 : 0 ≤ r1) (h2 : 0 ≤ r2)
    (hne : x2 - x1 ≠ 0) (h : |x2 - x1| < r1 + r2) :
    collide (.circle Transform2D.identity ⟨1, 0, x1, 0, 1, 0⟩ r1)
      (.circle Transform2D.identity ⟨1, 0, x2, 0, 1, 0⟩ r2) =
      some (Vec.smul (-(r1 + r2 - |x2 - x1|) / |x2 - x1|) ⟨x2 - x1, 0⟩) := by
  have hsub : Vec.sub (center (.circle Transform2D.identity ⟨1, 0, x2, 0, 1, 0⟩ r2))
      (center (.circle Transform2D.identity ⟨1, 0, x1, 0, 1, 0⟩ r1)) = ⟨x2 - x1, 0⟩ := by
    rw [sub_center_unit]
    norm_num
  have hd : Vec.sub (center (.circle Transform2D.identity ⟨1, 0, x2, 0, 1, 0⟩ r2))
      (center (.circle Transform2D.identity ⟨1, 0, x1, 0, 1, 0⟩ r1)) ≠ Vec.zero := by
    rw [hsub, Ne, Vec.eq_zero_iff]
    simp [hne]
  have hpos : 0 < scaledRadiusAux Transform2D.identity ⟨1, 0, x1, 0, 1, 0⟩ r1 +
      scaledRadiusAux Transform2D.identity ⟨1, 0, x2, 0, 1, 0⟩ r2 -
      Vec.mag (Vec.sub (center (.circle Transform2D.identity ⟨1, 0, x2, 0, 1, 0⟩ r2))
        (center (.circle Transform2D.identity ⟨1, 0, x1, 0, 1, 0⟩ r1))) := by
    rw [hsub, Vec.mag_mk_x, scaledRadiusAux_unit, scaledRadiusAux_unit,
      abs_of_nonneg h1, abs_of_nonneg h2]
    linarith
  rw [collide_circle_hit Transform2D.identity ⟨1, 0, x1, 0, 1, 0⟩ r1
    Transform2D.identity ⟨1, 0, x2, 0, 1, 0⟩ r2 hd hpos, hsub, Vec.mag_mk_x,
    scaledRadiusAux_unit, scaledRadiusAux_unit, abs_of_nonneg h1, abs_of_nonneg h2]

/-- C2: for two circle colliders with scaled radii r1, r2 at center distance
d, `overlap` holds iff d < r1 + r2, and on overlap the returned MTV has
magnitude r1 + r2 - d and (when the centers are distinct, so the line
through them is defined) lies along the center-to-center line, pointing from
the second circle's center toward the first's. -/
theorem C2_circle_overlap_and_mtv (l1 p1 : Transform2D) (r1 : ℝ)
    (l2 p2 : Transform2D) (r2 : ℝ) :
    (overlapHolds (.circle l1 p1 r1) (.circle l2 p2 r2) ↔
      Vec.mag (Vec.sub (center (.circle l2 p2 r2)) (center (.circle l1 p1 r1))) <
        scaledRadiusAux l1 p1 r1 + scaledRadiusAux l2 p2 r2) ∧
    (Vec.mag (Vec.sub (center (.circle l2 p2 r2)) (center (.circle l1 p1 r1))) <
        scaledRadiusAux l1 p1 r1 + scaledRadiusAux l2 p2 r2 →
      ∃ v, collide (.circle l1 p1 r1) (.circle l2 p2 r2) = some v ∧
        Vec.mag v = scaledRadiusAux l1 p1 r1 + scaledRadiusAux l2 p2 r2 -
          Vec.mag (Vec.sub (center (.circle l2 p2 r2)) (center (.circle l1 p1 r1))) ∧
        (Vec.sub (center (.circle l2 p2 r2)) (center (.circle l1 p1 r1)) ≠ Vec.zero →
          ∃ k : ℝ, k < 0 ∧
            v = Vec.smul k (Vec.sub (center (.circle l2 p2 r2)) (center (.circle l1 p1 r1))))) := by
  have key : Vec.mag (Vec.sub (center (.circle l2 p2 r2)) (center (.circle l1 p1 r1))) <
      scaledRadiusAux l1 p1 r1 + scaledRadiusAux l2 p2 r2 →
      ∃ v, collide (.circle l1 p1 r1) (.circle l2 p2 r2) = some v ∧
        Vec.mag v = scaledRadiusAux l1 p1 r1 + scaledRadiusAux l2 p2 r2 -
          Vec.mag (Vec.sub (center (.circle l2 p2 r2)) (center (.circle l1 p1 r1))) ∧
        v ≠ Vec.zero ∧
        (Vec.sub (center (.circle l2 p2 r2)) (center (.circle l1 p1 r1)) ≠ Vec.zero →
          ∃ k : ℝ, k < 0 ∧
            v = Vec.smul k (Vec.sub (center (.circle l2 p2 r2)) (center (.circle l1 p1 r1)))) := by
    intro hlt
    by_cases hd : Vec.sub (center (.circle l2 p2 r2)) (center (.circle l1 p1 r1)) = Vec.zero
    · have hm0 : Vec.mag (Vec.sub (center (.circle l2 p2 r2)) (center (.circle l1 p1 r1))) = 0 := by
        rw [hd]; exact Vec.mag_zero_vec
      have hpos : 0 < scaledRadiusAux l1 p1 r1 + scaledRadiusAux l2 p2 r2 := by
        rw [hm0] at hlt; exact hlt
      refine ⟨_, collide_circle_hit_deg l1 p1 r1 l2 p2 r2 hd hpos, ?_, ?_,
        fun hc => absurd hd hc⟩
      · rw [Vec.mag_mk_x, hm0, abs_of_neg (by linarith)]
        ring
      · intro hc
        rw [Vec.eq_zero_iff] at hc
        have := hc.1
        simp only at this
        linarith
    · have hmpos : 0 < Vec.mag (Vec.sub (center (.circle l2 p2 r2)) (center (.circle l1 p1 r1))) :=
        Vec.mag_pos_of_ne hd
      refine ⟨_, collide_circle_hit l1 p1 r1 l2 p2 r2 hd (by linarith), ?_, ?_,
        fun _ => ⟨_, ?_, rfl⟩⟩
      · rw [Vec.mag_smul, abs_div, abs_of_neg (by linarith), abs_of_pos hmpos]
        field_simp
      · rw [Ne, Vec.smul_eq_zero_iff]
        push_neg
        refine ⟨?_, hd⟩
        have hnum : -(scaledRadiusAux l1 p1 r1 + scaledRadiusAux l2 p2 r2 -
            Vec.mag (Vec.sub (center (.circle l2 p2 r2)) (center (.circle l1 p1 r1)))) < 0 := by
          linarith
        exact div_ne_zero (ne_of_lt hnum) (ne_of_gt hmpos)
      · exact div_neg_of_neg_of_pos (by linarith) hmpos
  constructor
  · constructor
    · intro hov
      by_contra hge
      push_neg at hge
      have hsep := collide_circle_sep l1 p1 r1 l2 p2 r2 (by linarith)
      unfold overlapHolds at hov
      rw [hsep] at hov
      simp only [Option.elim] at hov
      simp [Vec.zero] at hov
    · intro hlt
      obtain ⟨v, hcol, _, hvne, _⟩ := key hlt
      unfold overlapHolds
      rw [hcol]
      simp only [Option.elim]
      exact Vec.ne_zero_iff.mpr hvne
  · intro hlt
    obtain ⟨v, hcol, hmag, _, hdir⟩ := key hlt
    exact ⟨v, hcol, hmag, hdir⟩

/-- Witness for C2: circle A centered (0,0) with radius 5 against circle B
centered (8,0) with radius 4 overlap, with an MTV of magnitude 1. -/
theorem C2_circle_overlap_and_mtv_witness :
    overlapHolds (.circle Transform2D.identity Transform2D.identity 5)
        (.circle Transform2D.identity (Transform2D.identity.translate ⟨8, 0⟩) 4) ∧
      ∃ v, collide (.circle Transform2D.identity Transform2D.identity 5)
          (.circle Transform2D.identity (Transform2D.identity.translate ⟨8, 0⟩) 4) = some v ∧
        Vec.mag v = 1 := by
  have hsub : Vec.sub
      (center (.circle Transform2D.identity (Transform2D.identity.translate ⟨8, 0⟩) 4))
      (center (.circle Transform2D.identity Transform2D.identity 5)) = ⟨8, 0⟩ := by
    ext <;> norm_num [center, offsetOf, Collider.lt, Collider.pt, Transform2D.apply,
      Transform2D.identity, Transform2D.translate, Transform2D.mult, Vec.zero, Vec.sub]
  have hmag : Vec.mag (Vec.sub
      (center (.circle Transform2D.identity (Transform2D.identity.translate ⟨8, 0⟩) 4))
      (center (.circle Transform2D.identity Transform2D.identity 5))) = 8 := by
    rw [hsub, Vec.mag_mk_x]; norm_num
  have hs1 : scaledRadiusAux Transform2D.identity Transform2D.identity 5 = 5 := by
    unfold scaledRadiusAux
    have h5 : Vec.sub
        (Transform2D.identity.apply (Transform2D.identity.apply ⟨5, 0⟩))
        (Transform2D.identity.apply (Transform2D.identity.apply Vec.zero)) = ⟨5, 0⟩ := by
      ext <;> norm_num [Transform2D.apply, Transform2D.identity, Vec.zero, Vec.sub]
    rw [h5, Vec.mag_mk_x]; norm_num
  have hs2 : scaledRadiusAux Transform2D.identity (Transform2D.identity.translate ⟨8, 0⟩) 4 = 4 := by
    unfold scaledRadiusAux
    have h4 : Vec.sub
        ((Transform2D.identity.translate ⟨8, 0⟩).apply (Transform2D.identity.apply ⟨4, 0⟩))
        ((Transform2D.identity.translate ⟨8, 0⟩).apply (Transform2D.identity.apply Vec.zero)) =
        ⟨4, 0⟩ := by
      ext <;> norm_num [Transform2D.apply, Transform2D.identity, Transform2D.translate,
        Transform2D.mult, Vec.zero, Vec.sub]
    rw [h4, Vec.mag_mk_x]; norm_num
  have h := C2_circle_overlap_and_mtv Transform2D.identity Transform2D.identity 5
    Transform2D.identity (Transform2D.identity.translate ⟨8, 0⟩) 4
  have hlt : Vec.mag (Vec.sub
      (center (.circle Transform2D.identity (Transform2D.identity.translate ⟨8, 0⟩) 4))
      (center (.circle Transform2D.identity Transform2D.identity 5))) <
      scaledRadiusAux Transform2D.identity Transform2D.identity 5 +
        scaledRadiusAux Transform2D.identity (Transform2D.identity.translate ⟨8, 0⟩) 4 := by
    rw [hmag, hs1, hs2]; norm_num
  refine ⟨h.1.mpr hlt, ?_⟩
  obtain ⟨v, hc, hm, _⟩ := h.2 hlt
  refine ⟨v, hc, ?_⟩
  rw [hm, hmag, hs1, hs2]
  norm_num

theorem C10_point_point_collide_not_total (l1 p1 l2 p2 : Transform2D) :
    getCandidateAxes (.point l1 p1) (.point l2 p2) = [] ∧
    getCandidateAxes (.point l2 p2) (.point l1 p1) = [] ∧
    axesForShapes (.point l1 p1) (.point l2 p2) = [] ∧
    collide (.point l1 p1) (.point l2 p2) = none := by
  refine ⟨rfl, rfl, ?_, ?_⟩ <;>
    simp [axesForShapes, getCandidateAxes, dedupParallel, collide, collideLoop]

end Collider

end P5

namespace QT

namespace Qtree

theorem mem_stAll {st : List Ent × Qtree × Qtree × Qtree × Qtree} {x : Ent} :
    x ∈ stAll st ↔
      x ∈ st.1 ∨ x ∈ getAll st.2.1 ∨ x ∈ getAll st.2.2.1 ∨ x ∈ getAll st.2.2.2.1 ∨
        x ∈ getAll st.2.2.2.2 := by
  simp [stAll, List.mem_append]

theorem mem_redist_foldl (ins : Qtree → Ent → Qtree)
    (hins : ∀ t o x, x ∈ getAll (ins t o) ↔ x ∈ getAll t ∨ x = o) (b : Rect) :
    ∀ (l : List Ent) (st : List Ent × Qtree × Qtree × Qtree × Qtree) (x : Ent),
      x ∈ stAll (l.foldl (redistStep ins b) st) ↔ x ∈ stAll st ∨ x ∈ l := by
  intro l
  induction l with
  | nil => intro st x; simp
  | cons o rest ih =>
      intro st x
      obtain ⟨kept, c0, c1, c2, c3⟩ := st
      rw [List.foldl_cons, ih]
      cases hq : getIndex b o with
      | none =>
          simp only [redistStep, hq, mem_stAll, List.mem_append, List.mem_cons,
            List.mem_singleton]
          tauto
      | some j =>
          cases j <;>
            · simp only [redistStep, hq, mem_stAll, hins, List.mem_cons]
              tauto

theorem mem_or_self {l : List Ent} {o x : Ent} (h : o ∈ l) : x ∈ l ↔ x ∈ l ∨ x = o :=
  ⟨Or.inl, fun hc => hc.elim id (fun hx => hx ▸ h)⟩

theorem mem_getAll_of_mem_objects {t : Qtree} {o : Ent} (h : o ∈ objects t) :
    o ∈ getAll t := by
  cases t <;> simp_all [objects, getAll, List.mem_append]

theorem mem_getAll_insertAux :
    ∀ (fuel : ℕ) (t : Qtree) (o x : Ent),
      x ∈ getAll (insertAux fuel t o) ↔ x ∈ getAll t ∨ x = o := by
  intro fuel
  induction fuel with
  | zero =>
      intro t o x
      cases t with
      | leaf b mo ml lv os =>
          by_cases h : o ∈ os
          · simpa [insertAux, h, getAll] using
              mem_or_self (l := os) (o := o) (x := x) h
          · simp [insertAux, h, getAll, List.mem_append]
      | parent b mo ml lv os c0 c1 c2 c3 =>
          by_cases h : o ∈ os
          · simpa [insertAux, h, getAll] using
              mem_or_self (mem_getAll_of_mem_objects
                (t := parent b mo ml lv os c0 c1 c2 c3) (o := o) h) (x := x)
          · simp [insertAux, h, getAll, List.mem_append]
            tauto
  | succ fuel ih =>
      intro t o x
      cases t with
      | leaf b mo ml lv os =>
          by_cases h : o ∈ os
          · simpa [insertAux, h, getAll] using
              mem_or_self (l := os) (o := o) (x := x) h
          · simp only [insertAux, h, if_false, ite_false]
            split_ifs with hover
            · rw [show ∀ st, getAll (parent b mo ml lv st.1 st.2.1 st.2.2.1 st.2.2.2.1
                  st.2.2.2.2) = stAll st from fun _ => rfl]
              rw [mem_redist_foldl (insertAux fuel) (ih) b]
              simp [stAll, getAll, splitChildren, List.mem_append]
            · simp [getAll, List.mem_append]
      | parent b mo ml lv os c0 c1 c2 c3 =>
          by_cases h : o ∈ os
          · simpa [insertAux, h, getAll] using
              mem_or_self (mem_getAll_of_mem_objects
                (t := parent b mo ml lv os c0 c1 c2 c3) (o := o) h) (x := x)
          · simp only [insertAux, h, if_false, ite_false]
            cases hq : getIndex b o with
            | some j =>
                cases j <;> simp [getAll, List.mem_append, ih] <;> tauto
            | none =>
                split_ifs with hover
                · rw [show ∀ st, getAll (parent b mo ml lv st.1 st.2.1 st.2.2.1 st.2.2.2.1
                      st.2.2.2.2) = stAll st from fun _ => rfl]
                  rw [mem_redist_foldl (insertAux fuel) (ih) b]
                  simp [stAll, getAll, List.mem_append]
                  tauto
                · simp [getAll, List.mem_append]
                  tauto

theorem mem_getAll_insert (t : Qtree) (o x : Ent) :
    x ∈ getAll (insert t o) ↔ x ∈ getAll t ∨ x = o :=
  mem_getAll_insertAux _ t o x

theorem getAll_clear (t : Qtree) : getAll (clear t) = [] := by
  cases t <;> rfl

theorem mem_foldl_insert :
    ∀ (l : List Ent) (t : Qtree) (x : Ent),
      x ∈ getAll (l.foldl insert t) ↔ x ∈ getAll t ∨ x ∈ l := by
  intro l
  induction l with
  | nil => simp
  | cons o rest ih =>
      intro t x
      rw [List.foldl_cons, ih, mem_getAll_insert]
      simp [List.mem_cons]
      tauto

/-- C9: `cleanup()` preserves quadtree membership — an entity is in
`getAll()` after `cleanup()` exactly when it was before, for every quadtree
state. -/
theorem C9_cleanup_preserves_membership (t : Qtree) (x : Ent) :
    x ∈ getAll (cleanup t) ↔ x ∈ getAll t := by
  unfold cleanup
  rw [mem_foldl_insert, getAll_clear]
  simp

theorem wf_redist_foldl (ins : Qtree → Ent → Qtree)
    (hmem : ∀ t o x, x ∈ getAll (ins t o) ↔ x ∈ getAll t ∨ x = o)
    (hwf : ∀ t o, WF t → WF (ins t o)) (b : Rect) :
    ∀ (l : List Ent) (st : List Ent × Qtree × Qtree × Qtree × Qtree),
      stWF b st → stWF b (l.foldl (redistStep ins b) st) := by
  intro l
  induction l with
  | nil => intro st h; exact h
  | cons o rest ih =>
      intro st h
      obtain ⟨kept, c0, c1, c2, c3⟩ := st
      obtain ⟨h0, h1, h2, h3, w0, w1, w2, w3⟩ := h
      rw [List.foldl_cons]
      refine ih _ ?_
      cases hq : getIndex b o with
      | none =>
          simp only [redistStep, hq]
          exact ⟨h0, h1, h2, h3, w0, w1, w2, w3⟩
      | some j =>
          cases j <;> simp only [redistStep, hq] <;>
            refine ⟨?_, ?_, ?_, ?_, ?_, ?_, ?_, ?_⟩ <;>
            first
              | intro e he
                rcases (hmem _ _ _).1 he with he' | rfl
                · first | exact h0 e he' | exact h1 e he' | exact h2 e he' | exact h3 e he'
                · exact hq
              | first | exact h0 | exact h1 | exact h2 | exact h3
              | first | exact hwf _ _ w0 | exact hwf _ _ w1 | exact hwf _ _ w2
                      | exact hwf _ _ w3
              | first | exact w0 | exact w1 | exact w2 | exact w3

theorem wf_parent_iff {b : Rect} {mo ml lv : ℕ} {os : List Ent} {c0 c1 c2 c3 : Qtree} :
    WF (parent b mo ml lv os c0 c1 c2 c3) ↔ stWF b (os, c0, c1, c2, c3) :=
  Iff.rfl

theorem wf_insertAux :
    ∀ (fuel : ℕ) (t : Qtree) (o : Ent), WF t → WF (insertAux fuel t o) := by
  intro fuel
  induction fuel with
  | zero =>
      intro t o h
      cases t with
      | leaf b mo ml lv os => by_cases hm : o ∈ os <;> simp [insertAux, hm, WF]
      | parent b mo ml lv os c0 c1 c2 c3 => by_cases hm : o ∈ os <;> simpa [insertAux, hm] using h
  | succ fuel ih =>
      intro t o h
      cases t with
      | leaf b mo ml lv os =>
          by_cases hm : o ∈ os
          · simpa [insertAux, hm] using h
          · simp only [insertAux, hm, if_false, ite_false]
            split_ifs with hover
            · refine (wf_parent_iff).2 ?_
              refine wf_redist_foldl (insertAux fuel) (mem_getAll_insertAux fuel) ih b _ _ ?_
              simp [stWF, splitChildren, getAll, WF]
            · trivial
      | parent b mo ml lv os c0 c1 c2 c3 =>
          by_cases hm : o ∈ os
          · simpa [insertAux, hm] using h
          · obtain ⟨h0, h1, h2, h3, w0, w1, w2, w3⟩ := h
            simp only [insertAux, hm, if_false, ite_false]
            cases hq : getIndex b o with
            | some j =>
                cases j <;>
                  refine ⟨?_, ?_, ?_, ?_, ?_, ?_, ?_, ?_⟩ <;>
                  first
                    | intro e he
                      rcases (mem_getAll_insertAux fuel _ _ _).1 he with he' | rfl
                      · first | exact h0 e he' | exact h1 e he' | exact h2 e he'
                              | exact h3 e he'
                      · exact hq
                    | first | exact h0 | exact h1 | exact h2 | exact h3
                    | first | exact ih _ _ w0 | exact ih _ _ w1 | exact ih _ _ w2
                            | exact ih _ _ w3
                    | first | exact w0 | exact w1 | exact w2 | exact w3
            | none =>
                split_ifs with hover
                · refine (wf_parent_iff).2 ?_
                  refine wf_redist_foldl (insertAux fuel) (mem_getAll_insertAux fuel) ih b _ _ ?_
                  exact ⟨h0, h1, h2, h3, w0, w1, w2, w3⟩
                · exact ⟨h0, h1, h2, h3, w0, w1, w2, w3⟩

theorem wf_of_built {t : Qtree} (h : Built t) : WF t := by
  induction h with
  | empty b mo ml lv => trivial
  | step t o _ ih => exact wf_insertAux _ t o ih

theorem getIndex_bounds {b : Rect} {e : Ent} {cb : BBox} (hbe : e.collider = some cb)
    {i : Quadrant} (h : getIndex b e = some i) :
    ((i = .tl ∨ i = .bl) → cb.right < b.x + b.width / 2) ∧
    ((i = .tr ∨ i = .br) → b.x + b.width / 2 < cb.left) ∧
    ((i = .tl ∨ i = .tr) → cb.bottom < b.y + b.height / 2) ∧
    ((i = .bl ∨ i = .br) → b.y + b.height / 2 < cb.top) := by
  simp only [getIndex, hbe] at h
  split_ifs at h with h1 h2 h3 h4 h5 h6 <;>
    simp only [Option.some.injEq] at h <;> subst h <;>
    refine ⟨?_, ?_, ?_, ?_⟩ <;> simp_all

theorem getIndex_disjoint {b : Rect} {e q : Ent} {i j : Quadrant} {be bq : BBox}
    (hbe : e.collider = some be) (hbq : q.collider = some bq)
    (hi : getIndex b e = some i) (hj : getIndex b q = some j) (hij : i ≠ j) :
    ¬ boxesIntersect be bq := by
  obtain ⟨eL, eR, eT, eB⟩ := getIndex_bounds hbe hi
  obtain ⟨qL, qR, qT, qB⟩ := getIndex_bounds hbq hj
  intro hint
  obtain ⟨i1, i2, i3, i4⟩ := hint
  cases i <;> cases j <;> simp_all <;> linarith

theorem mem_retrieve_of_mem_getAll :
    ∀ (t : Qtree), WF t → ∀ (q e : Ent) (be bq : BBox),
      e.collider = some be → q.collider = some bq → boxesIntersect be bq →
      e ∈ getAll t → e ∈ retrieve t q := by
  intro t
  induction t with
  | leaf b mo ml lv os => intro _ q e be bq _ _ _ hm; simpa [retrieve] using hm
  | parent b mo ml lv os c0 c1 c2 c3 ih0 ih1 ih2 ih3 =>
      intro hwf q e be bq hbe hbq hint hm
      obtain ⟨h0, h1, h2, h3, w0, w1, w2, w3⟩ := hwf
      simp only [getAll, List.mem_append] at hm
      unfold retrieve
      cases hq : getIndex b q with
      | none =>
          simp only [List.mem_append]
          rcases hm with hm | hm | hm | hm | hm
          · exact Or.inl hm
          · exact Or.inr (Or.inl (ih0 w0 q e be bq hbe hbq hint hm))
          · exact Or.inr (Or.inr (Or.inl (ih1 w1 q e be bq hbe hbq hint hm)))
          · exact Or.inr (Or.inr (Or.inr (Or.inl (ih2 w2 q e be bq hbe hbq hint hm))))
          · exact Or.inr (Or.inr (Or.inr (Or.inr (ih3 w3 q e be bq hbe hbq hint hm))))
      | some j =>
          have key : ∀ (c : Qtree) (iq : Quadrant),
              (∀ x ∈ getAll c, getIndex b x = some iq) → iq ≠ j → e ∈ getAll c → False := by
            intro c iq hc hne hmem
            exact getIndex_disjoint hbe hbq (hc e hmem) hq hne hint
          cases j <;> simp only [List.mem_append] <;>
            rcases hm with hm | hm | hm | hm | hm <;>
            first
              | exact Or.inl hm
              | exact Or.inr (ih0 w0 q e be bq hbe hbq hint hm)
              | exact Or.inr (ih1 w1 q e be bq hbe hbq hint hm)
              | exact Or.inr (ih2 w2 q e be bq hbe hbq hint hm)
              | exact Or.inr (ih3 w3 q e be bq hbe hbq hint hm)
              | exact absurd hm (fun hmem => key c0 .tr h0 (by simp) hmem)
              | exact absurd hm (fun hmem => key c1 .tl h1 (by simp) hmem)
              | exact absurd hm (fun hmem => key c2 .bl h2 (by simp) hmem)
              | exact absurd hm (fun hmem => key c3 .br h3 (by simp) hmem)

/-- C8: for every quadtree built by a sequence of insertions and every query
entity with a bounding box, `retrieve` returns every stored entry whose
bounding box intersects the query's bounding box (no truly intersecting
entry is omitted). -/
theorem C8_retrieve_no_omission {t : Qtree} (hb : Built t) (q e : Ent) {be bq : BBox}
    (hbe : e.collider = some be) (hbq : q.collider = some bq)
    (hint : boxesIntersect be bq) (hm : e ∈ getAll t) : e ∈ retrieve t q :=
  mem_retrieve_of_mem_getAll t (wf_of_built hb) q e be bq hbe hbq hint hm

/-- Witness for C8: a concrete two-entry tree (capacity 0, so the root has
split) and a query overlapping the entry stored in the top-left subnode. -/
theorem C8_retrieve_no_omission_witness :
    (⟨1, some ⟨10, 20, 10, 20⟩⟩ : Ent) ∈
      retrieve (insert (insert (leaf ⟨0, 0, 100, 100⟩ 0 4 0 [])
        ⟨1, some ⟨10, 20, 10, 20⟩⟩) ⟨2, some ⟨10, 20, 60, 70⟩⟩)
        ⟨3, some ⟨12, 18, 12, 18⟩⟩ :=
  C8_retrieve_no_omission
    (Built.step _ _ (Built.step _ _ (Built.empty ⟨0, 0, 100, 100⟩ 0 4 0)))
    ⟨3, some ⟨12, 18, 12, 18⟩⟩ ⟨1, some ⟨10, 20, 10, 20⟩⟩ rfl rfl
    (by norm_num [boxesIntersect])
    (by norm_num [insert, insertAux, getAll, maxLevels, splitChildren, redistStep,
      getIndex, jsRound])

end Qtree

end QT

namespace P5

theorem updateFromSprite_circle_unit (s : Sprite) (l p : Transform2D) (r : ℝ)
    (h1 : s.scaleX = 1) (h2 : s.scaleY = 1) (h3 : s.rotation = 0) :
    updateFromSprite (.circle l p r) s =
      .circle l ⟨1, 0, s.position.x, 0, 1, s.position.y⟩ r := by
  unfold updateFromSprite
  rw [spriteTransformCircle_unit s h1 h2 h3]

theorem broadPhase_static :
    Collider.collide (getBroadPhaseCollider spriteStaticA)
      (getBroadPhaseCollider spriteStaticB) = some ⟨-1, 0⟩ := by
  have ha : getBroadPhaseCollider spriteStaticA = spriteStaticA.collider := by
    unfold getBroadPhaseCollider
    rw [if_neg]
    norm_num [spriteStaticA, mkSprite, Vec.magSq]
  have hb : getBroadPhaseCollider spriteStaticB = spriteStaticB.collider := by
    unfold getBroadPhaseCollider
    rw [if_neg]
    norm_num [spriteStaticB, mkSprite, Vec.magSq]
  rw [ha, hb]
  show Collider.collide (.circle Transform2D.identity Transform2D.identity 1)
      (.circle Transform2D.identity ⟨1, 0, 1, 0, 1, 0⟩ 1) = some ⟨-1, 0⟩
  have h := Collider.collide_unit_x_hit 0 1 1 1 (by norm_num) (by norm_num)
    (by norm_num) (by norm_num)
  have h2 : Vec.smul (-(1 + 1 - |(1 : ℝ) - 0|) / |(1 : ℝ) - 0|) ⟨(1 : ℝ) - 0, 0⟩ =
      (⟨-1, 0⟩ : Vec) := by
    ext <;> norm_num [Vec.smul]
  rw [h2] at h
  exact h

theorem directCheck_static :
    directCheck spriteStaticA spriteStaticB =
      some (⟨-1, 0⟩,
        { spriteStaticA with collider := .circle Transform2D.identity ⟨1, 0, 0, 0, 1, 0⟩ 1 },
        { spriteStaticB with collider := .circle Transform2D.identity ⟨1, 0, 1, 0, 1, 0⟩ 1 }) := by
  have hA : updateFromSprite spriteStaticA.collider spriteStaticA =
      .circle Transform2D.identity ⟨1, 0, 0, 0, 1, 0⟩ 1 := by
    rw [show spriteStaticA.collider = .circle Transform2D.identity Transform2D.identity 1
      from rfl]
    rw [updateFromSprite_circle_unit spriteStaticA _ _ 1 rfl rfl rfl]
    rfl
  have hB : updateFromSprite spriteStaticB.collider spriteStaticB =
      .circle Transform2D.identity ⟨1, 0, 1, 0, 1, 0⟩ 1 := by
    rw [show spriteStaticB.collider = .circle Transform2D.identity ⟨1, 0, 1, 0, 1, 0⟩ 1
      from rfl]
    rw [updateFromSprite_circle_unit spriteStaticB _ _ 1 rfl rfl rfl]
    rfl
  unfold directCheck
  dsimp only
  rw [hA, hB]
  have h := Collider.collide_unit_x_hit 0 1 1 1 (by norm_num) (by norm_num)
    (by norm_num) (by norm_num)
  have h2 : Vec.smul (-(1 + 1 - |(1 : ℝ) - 0|) / |(1 : ℝ) - 0|) ⟨(1 : ℝ) - 0, 0⟩ =
      (⟨-1, 0⟩ : Vec) := by
    ext <;> norm_num [Vec.smul]
  rw [h2] at h
  rw [h]
  rfl

theorem findDisplacement_static :
    findDisplacement spriteStaticA spriteStaticB =
      some (⟨-1, 0⟩,
        { spriteStaticA with collider := .circle Transform2D.identity ⟨1, 0, 0, 0, 1, 0⟩ 1 },
        { spriteStaticB with collider := .circle Transform2D.identity ⟨1, 0, 1, 0, 1, 0⟩ 1 }) := by
  unfold findDisplacement
  rw [broadPhase_static]
  show (if (⟨-1, 0⟩ : Vec).x ≠ 0 ∨ (⟨-1, 0⟩ : Vec).y ≠ 0 then _ else _) = _
  rw [if_pos (Or.inl (by norm_num))]
  rw [if_neg]
  · exact directCheck_static
  · rintro ⟨hc, -⟩
    apply hc
    rw [show Vec.sub spriteStaticA.velocity spriteStaticB.velocity = Vec.zero from by
      ext <;> simp [spriteStaticA, spriteStaticB, mkSprite, Vec.sub, Vec.zero]]
    exact Vec.mag_zero_vec

theorem collideWithOne_overlap_static_eval :
    collideWithOne .overlap spriteStaticA spriteStaticB true =
      some (true,
        { spriteStaticA with collider := .circle Transform2D.identity ⟨1, 0, 0, 0, 1, 0⟩ 1 },
        { spriteStaticB with collider := .circle Transform2D.identity ⟨1, 0, 1, 0, 1, 0⟩ 1 },
        1) := by
  unfold collideWithOne
  rw [findDisplacement_static]
  dsimp only
  split
  · next hc => exact absurd hc (by rintro ⟨h, -⟩; norm_num at h)
  · have h2 : (CollisionType.overlap = CollisionType.displace) = False := eq_false (by decide)
    have h3 : (CollisionType.overlap = CollisionType.collideT ∨
        CollisionType.overlap = CollisionType.bounce ∨
        CollisionType.overlap = CollisionType.bounceOff) = False := eq_false (by decide)
    have h4 : (CollisionType.overlap = CollisionType.collideT) = False := eq_false (by decide)
    have h5 : (CollisionType.overlap = CollisionType.bounceOff) = False := eq_false (by decide)
    have h6 : (CollisionType.overlap ≠ CollisionType.isTouching) = True := eq_true (by decide)
    have h7 : (CollisionType.overlap = CollisionType.bounce) = False := eq_false (by decide)
    norm_num [h2, h3, h4, h5, h6, h7, spriteStaticA, spriteStaticB, mkSprite]

/-- C7 counterexample: an overlap query with a supplied callback on a
colliding pair does invoke the callback (once) — contradicting the claim
that overlap-only policies never invoke it.  The `type !== 'isTouching'`
guard is dead because `isTouching` aliases `overlap`. -/
theorem C7_overlap_callback_counterexample :
    ∃ r, collideWithOne .overlap spriteStaticA spriteStaticB true = some r ∧
      r.1 = true ∧ r.2.2.2 = 1 :=
  ⟨_, collideWithOne_overlap_static_eval, rfl, rfl⟩

/-- C7 amended: for every policy tag actually routed by the public entry
points (all five policies, overlap included, but not the dead 'isTouching'
tag), a pairwise collision test invokes the caller-supplied callback exactly
once when a collision occurred and a callback was provided, and never
otherwise. -/
theorem C7_callback_once_all_policies (ty : CollisionType) (a b : Sprite) (cb : Bool)
    (hty : ty ≠ .isTouching) :
    ∀ r, collideWithOne ty a b cb = some r →
      r.2.2.2 = if r.1 = true ∧ cb = true then 1 else 0 := by
  intro r hr
  unfold collideWithOne at hr
  cases hfd : findDisplacement a b with
  | none => rw [hfd] at hr; exact absurd hr (by simp)
  | some t =>
      rw [hfd] at hr
      obtain ⟨d, a1, b1⟩ := t
      dsimp only at hr
      by_cases hz : d.x = 0 ∧ d.y = 0
      · rw [if_pos hz] at hr
        simp only [Option.some.injEq] at hr
        subst hr
        simp
      · rw [if_neg hz] at hr
        simp only [Option.some.injEq] at hr
        subst hr
        dsimp only
        by_cases hcb : cb = true
        · rw [if_pos ⟨(by exact_mod_cast hcb), hty⟩, if_pos ⟨rfl, hcb⟩]
        · rw [if_neg (fun hc => hcb (by exact_mod_cast hc.1)),
            if_neg (fun hc => hcb hc.2)]

/-- Witness for the amended C7: the concrete overlapping pair with a
callback supplied under the 'overlap' policy, exactly one invocation. -/
theorem C7_callback_once_all_policies_witness :
    ((true,
      { spriteStaticA with collider := Collider.circle Transform2D.identity ⟨1, 0, 0, 0, 1, 0⟩ 1 },
      { spriteStaticB with collider := Collider.circle Transform2D.identity ⟨1, 0, 1, 0, 1, 0⟩ 1 },
      1) : Bool × Sprite × Sprite × ℕ).2.2.2 =
      if (true,
        { spriteStaticA with collider := Collider.circle Transform2D.identity ⟨1, 0, 0, 0, 1, 0⟩ 1 },
        { spriteStaticB with collider := Collider.circle Transform2D.identity ⟨1, 0, 1, 0, 1, 0⟩ 1 },
        (1 : ℕ)).1 = true ∧ true = true then 1 else 0 :=
  C7_callback_once_all_policies .overlap spriteStaticA spriteStaticB true (by intro h; cases h)
    _ collideWithOne_overlap_static_eval

theorem Vec.mag_mk_y (y : ℝ) : Vec.mag ⟨0, y⟩ = |y| := by
  unfold Vec.mag
  rw [show (0 : ℝ) * 0 + y * y = y * y by ring, Real.sqrt_mul_self_eq_abs]

theorem Collider.storedAxis_zero (axis : Vec) : Collider.storedAxis Vec.zero axis = axis := by
  unfold Collider.storedAxis
  rw [Vec.project_zero_left, if_pos rfl]

theorem Collider.collideLoop_cons_none (a b : Collider) (delta axis : Vec) (rest : List Vec)
    (h : ¬ Collider.overlapOn a b delta axis ≤ 0) :
    Collider.collideLoop a b delta (axis :: rest) none =
      Collider.collideLoop a b delta rest
        (some (Collider.overlapOn a b delta axis, Collider.storedAxis delta axis)) := by
  simp [Collider.collideLoop, h]

theorem Collider.collideLoop_cons_some_lt (a b : Collider) (delta axis : Vec)
    (rest : List Vec) (s : ℝ) (ax : Vec) (h0 : ¬ Collider.overlapOn a b delta axis ≤ 0)
    (hlt : Collider.overlapOn a b delta axis < s) :
    Collider.collideLoop a b delta (axis :: rest) (some (s, ax)) =
      Collider.collideLoop a b delta rest
        (some (Collider.overlapOn a b delta axis, Collider.storedAxis delta axis)) := by
  simp [Collider.collideLoop, h0, hlt]

theorem Collider.collideLoop_cons_some_ge (a b : Collider) (delta axis : Vec)
    (rest : List Vec) (s : ℝ) (ax : Vec) (h0 : ¬ Collider.overlapOn a b delta axis ≤ 0)
    (hge : ¬ Collider.overlapOn a b delta axis < s) :
    Collider.collideLoop a b delta (axis :: rest) (some (s, ax)) =
      Collider.collideLoop a b delta rest (some (s, ax)) := by
  simp [Collider.collideLoop, h0, hge]

theorem Collider.collideLoop_nil_some (a b : Collider) (delta : Vec) (s : ℝ) (ax : Vec) :
    Collider.collideLoop a b delta [] (some (s, ax)) = some (Vec.setMag ax (-s)) := by
  simp [Collider.collideLoop]

theorem Collider.obbPotentialAxes_tunnel :
    Collider.obbPotentialAxes ⟨1, 0, 50, 0, 1, 0⟩ Transform2D.identity 102 2 =
      (⟨102, 0⟩, ⟨0, 2⟩) := by
  unfold Collider.obbPotentialAxes Collider.obbVertices
  dsimp only
  ext <;> norm_num [Transform2D.mult, Transform2D.apply, Transform2D.identity, Vec.sub]

theorem Collider.obbHalfDiagonals_tunnel :
    Collider.obbHalfDiagonals ⟨1, 0, 50, 0, 1, 0⟩ Transform2D.identity 102 2 =
      (⟨51, -1⟩, ⟨51, 1⟩) := by
  unfold Collider.obbHalfDiagonals Collider.obbVertices
  dsimp only
  ext <;> norm_num [Transform2D.mult, Transform2D.apply, Transform2D.identity, Vec.sub,
    Vec.zero]

theorem Collider.halfDiagonals_tunnel :
    Collider.halfDiagonals (Collider.obb ⟨1, 0, 50, 0, 1, 0⟩ Transform2D.identity 102 2) =
      (⟨51, -1⟩, ⟨51, 1⟩) := Collider.obbHalfDiagonals_tunnel

theorem Collider.circleBoxAxis_tunnel :
    Collider.circleBoxAxis ⟨50, 0⟩ ⟨50, 0⟩ (⟨51, -1⟩, ⟨51, 1⟩) = ⟨51, -1⟩ := by
  unfold Collider.circleBoxAxis
  norm_num [Collider.closestOf, Vec.magSq, Vec.sub, Vec.add]

theorem Collider.center_obb_tunnel :
    Collider.center (Collider.obb ⟨1, 0, 50, 0, 1, 0⟩ Transform2D.identity 102 2) =
      ⟨50, 0⟩ := by
  unfold Collider.center Collider.offsetOf
  ext <;> norm_num [Collider.lt, Collider.pt, Transform2D.apply, Transform2D.identity,
    Vec.zero]

theorem Collider.axesForShapes_tunnel :
    Collider.axesForShapes (Collider.obb ⟨1, 0, 50, 0, 1, 0⟩ Transform2D.identity 102 2)
      (Collider.circle Transform2D.identity ⟨1, 0, 50, 0, 1, 0⟩ 1) =
      [⟨102, 0⟩, ⟨0, 2⟩, ⟨51, -1⟩] := by
  have hp1 : ¬ Vec.isParallel ⟨102, 0⟩ ⟨0, 2⟩ := by
    rintro (⟨h, -⟩ | ⟨-, h⟩ | ⟨h, -, -⟩)
    · rw [abs_lt] at h; norm_num at h
    · rw [abs_lt] at h; norm_num at h
    · exact h rfl
  have hp2 : ¬ Vec.isParallel ⟨102, 0⟩ ⟨51, -1⟩ := by
    rintro (⟨h, -⟩ | ⟨-, h⟩ | ⟨-, -, h⟩)
    · rw [abs_lt] at h; norm_num at h
    · rw [abs_lt] at h; norm_num at h
    · rw [abs_lt] at h; norm_num at h
  have hp3 : ¬ Vec.isParallel ⟨0, 2⟩ ⟨51, -1⟩ := by
    rintro (⟨-, h⟩ | ⟨h, -⟩ | ⟨-, -, h⟩)
    · rw [abs_lt] at h; norm_num at h
    · rw [abs_lt] at h; norm_num at h
    · rw [abs_lt] at h; norm_num at h
  unfold Collider.axesForShapes Collider.getCandidateAxes
  dsimp only
  rw [Collider.obbPotentialAxes_tunnel, Collider.halfDiagonals_tunnel,
    Collider.center_obb_tunnel, Collider.center_circle_unit, Collider.circleBoxAxis_tunnel]
  norm_num [Collider.dedupParallel, hp1, hp2, hp3, Vec.zero]

theorem broadPhase_tunnel :
    Collider.collide (getBroadPhaseCollider spriteTunnelA)
      (getBroadPhaseCollider spriteTunnelB) = some ⟨0, -2⟩ := by
  have ha : getBroadPhaseCollider spriteTunnelA =
      Collider.obb ⟨1, 0, 50, 0, 1, 0⟩ Transform2D.identity 102 2 := by
    unfold getBroadPhaseCollider
    rw [if_pos (by norm_num [spriteTunnelA, mkSprite, Vec.magSq] :
      Vec.magSq spriteTunnelA.velocity > 0)]
    rfl
  have hb : getBroadPhaseCollider spriteTunnelB =
      Collider.circle Transform2D.identity ⟨1, 0, 50, 0, 1, 0⟩ 1 := by
    unfold getBroadPhaseCollider
    rw [if_neg (by norm_num [spriteTunnelB, mkSprite, Vec.magSq] :
      ¬ Vec.magSq spriteTunnelB.velocity > 0)]
    rfl
  rw [ha, hb]
  unfold Collider.collide
  have hdelta : Vec.sub
      (Collider.center (Collider.circle Transform2D.identity ⟨1, 0, 50, 0, 1, 0⟩ 1))
      (Collider.center (Collider.obb ⟨1, 0, 50, 0, 1, 0⟩ Transform2D.identity 102 2)) =
      Vec.zero := by
    rw [Collider.center_circle_unit, Collider.center_obb_tunnel]
    ext <;> norm_num [Vec.sub, Vec.zero]
  rw [Collider.axesForShapes_tunnel, hdelta]
  have hradC : ∀ ax : Vec,
      Collider.radiusOnAxis (Collider.circle Transform2D.identity ⟨1, 0, 50, 0, 1, 0⟩ 1) ax
        = 1 := by
    intro ax
    rw [Collider.radiusOnAxis_circle, Collider.scaledRadiusAux_unit, abs_one]
  have hrad1 : Collider.radiusOnAxis
      (Collider.obb ⟨1, 0, 50, 0, 1, 0⟩ Transform2D.identity 102 2) ⟨102, 0⟩ = 51 := by
    unfold Collider.radiusOnAxis
    dsimp only
    rw [Collider.obbHalfDiagonals_tunnel]
    dsimp only
    rw [(by unfold Vec.project Vec.dot Vec.smul; ext <;> norm_num :
        Vec.project ⟨51, -1⟩ ⟨102, 0⟩ = (⟨51, 0⟩ : Vec)),
      (by unfold Vec.project Vec.dot Vec.smul; ext <;> norm_num :
        Vec.project ⟨51, 1⟩ ⟨102, 0⟩ = (⟨51, 0⟩ : Vec)),
      Vec.mag_mk_x, abs_of_nonneg (by norm_num : (0:ℝ) ≤ 51), max_self]
  have hrad2 : Collider.radiusOnAxis
      (Collider.obb ⟨1, 0, 50, 0, 1, 0⟩ Transform2D.identity 102 2) ⟨0, 2⟩ = 1 := by
    unfold Collider.radiusOnAxis
    dsimp only
    rw [Collider.obbHalfDiagonals_tunnel]
    dsimp only
    rw [(by unfold Vec.project Vec.dot Vec.smul; ext <;> norm_num :
        Vec.project ⟨51, -1⟩ ⟨0, 2⟩ = (⟨0, -1⟩ : Vec)),
      (by unfold Vec.project Vec.dot Vec.smul; ext <;> norm_num :
        Vec.project ⟨51, 1⟩ ⟨0, 2⟩ = (⟨0, 1⟩ : Vec)),
      Vec.mag_mk_y, Vec.mag_mk_y, abs_neg, abs_one, max_self]
  have hrad3 : Collider.radiusOnAxis
      (Collider.obb ⟨1, 0, 50, 0, 1, 0⟩ Transform2D.identity 102 2) ⟨51, -1⟩ =
      Real.sqrt 2602 := by
    unfold Collider.radiusOnAxis
    dsimp only
    rw [Collider.obbHalfDiagonals_tunnel]
    dsimp only
    rw [(by unfold Vec.project Vec.dot Vec.smul; ext <;> norm_num :
        Vec.project ⟨51, -1⟩ ⟨51, -1⟩ = (⟨51, -1⟩ : Vec)),
      (by unfold Vec.project Vec.dot; norm_num :
        Vec.project ⟨51, 1⟩ ⟨51, -1⟩ = Vec.smul (1300/1301) ⟨51, -1⟩),
      Vec.mag_smul,
      (by unfold Vec.mag; norm_num : Vec.mag ⟨51, -1⟩ = Real.sqrt 2602),
      abs_of_nonneg (by norm_num : (0:ℝ) ≤ 1300/1301),
      max_eq_left (by
        have hs := Real.sqrt_nonneg (2602 : ℝ)
        linarith : 1300/1301 * Real.sqrt 2602 ≤ Real.sqrt 2602)]
  have hov1 : Collider.overlapOn
      (Collider.obb ⟨1, 0, 50, 0, 1, 0⟩ Transform2D.identity 102 2)
      (Collider.circle Transform2D.identity ⟨1, 0, 50, 0, 1, 0⟩ 1) Vec.zero ⟨102, 0⟩ =
      52 := by
    unfold Collider.overlapOn
    rw [hrad1, hradC, Vec.project_zero_left, Vec.mag_zero_vec]
    norm_num
  have hov2 : Collider.overlapOn
      (Collider.obb ⟨1, 0, 50, 0, 1, 0⟩ Transform2D.identity 102 2)
      (Collider.circle Transform2D.identity ⟨1, 0, 50, 0, 1, 0⟩ 1) Vec.zero ⟨0, 2⟩ =
      2 := by
    unfold Collider.overlapOn
    rw [hrad2, hradC, Vec.project_zero_left, Vec.mag_zero_vec]
    norm_num
  have hov3 : Collider.overlapOn
      (Collider.obb ⟨1, 0, 50, 0, 1, 0⟩ Transform2D.identity 102 2)
      (Collider.circle Transform2D.identity ⟨1, 0, 50, 0, 1, 0⟩ 1) Vec.zero ⟨51, -1⟩ =
      Real.sqrt 2602 + 1 := by
    unfold Collider.overlapOn
    rw [hrad3, hradC, Vec.project_zero_left, Vec.mag_zero_vec]
    ring
  have hsq1 : (1 : ℝ) ≤ Real.sqrt 2602 := by
    have h := Real.sqrt_le_sqrt (show (1:ℝ) ≤ 2602 by norm_num)
    rwa [Real.sqrt_one] at h
  rw [Collider.collideLoop_cons_none
      (Collider.obb ⟨1, 0, 50, 0, 1, 0⟩ Transform2D.identity 102 2)
      (Collider.circle Transform2D.identity ⟨1, 0, 50, 0, 1, 0⟩ 1)
      Vec.zero ⟨102, 0⟩ [⟨0, 2⟩, ⟨51, -1⟩]
      (by rw [hov1]; norm_num),
    hov1, Collider.storedAxis_zero]
  rw [Collider.collideLoop_cons_some_lt
      (Collider.obb ⟨1, 0, 50, 0, 1, 0⟩ Transform2D.identity 102 2)
      (Collider.circle Transform2D.identity ⟨1, 0, 50, 0, 1, 0⟩ 1)
      Vec.zero ⟨0, 2⟩ [⟨51, -1⟩] 52 ⟨102, 0⟩
      (by rw [hov2]; norm_num) (by rw [hov2]; norm_num),
    hov2, Collider.storedAxis_zero]
  rw [Collider.collideLoop_cons_some_ge
      (Collider.obb ⟨1, 0, 50, 0, 1, 0⟩ Transform2D.identity 102 2)
      (Collider.circle Transform2D.identity ⟨1, 0, 50, 0, 1, 0⟩ 1)
      Vec.zero ⟨51, -1⟩ [] 2 ⟨0, 2⟩
      (by rw [hov3]; intro hc; nlinarith [Real.sqrt_nonneg (2602 : ℝ)])
      (by rw [hov3]; intro hc; linarith),
    Collider.collideLoop_nil_some]
  rw [Vec.setMag_of_ne (-2)
    (by rw [Vec.mag_mk_y, abs_of_nonneg (by norm_num : (0:ℝ) ≤ 2)]; norm_num),
    Vec.mag_mk_y, abs_of_nonneg (by norm_num : (0:ℝ) ≤ 2)]
  norm_num [Vec.smul]

theorem substepTimestep_tunnel : substepTimestep spriteTunnelA spriteTunnelB = 3/200 := by
  have h1 : Collider.minRadius spriteTunnelA.collider = 1 := by
    show Collider.scaledRadiusAux Transform2D.identity ⟨1, 0, 100, 0, 1, 0⟩ 1 = 1
    rw [Collider.scaledRadiusAux_unit, abs_one]
  have h2 : Collider.minRadius spriteTunnelB.collider = 1 := by
    show Collider.scaledRadiusAux Transform2D.identity ⟨1, 0, 50, 0, 1, 0⟩ 1 = 1
    rw [Collider.scaledRadiusAux_unit, abs_one]
  have h3 : Vec.mag (Vec.sub spriteTunnelA.velocity spriteTunnelB.velocity) = 100 := by
    rw [(by ext <;> norm_num [spriteTunnelA, spriteTunnelB, mkSprite, Vec.sub] :
      Vec.sub spriteTunnelA.velocity spriteTunnelB.velocity = (⟨100, 0⟩ : Vec)),
      Vec.mag_mk_x, abs_of_nonneg (by norm_num : (0:ℝ) ≤ 100)]
  unfold substepTimestep
  rw [h1, h2, h3, max_self, max_eq_left (by norm_num : (1:ℝ)/100 ≤ 0.015)]
  norm_num

theorem substepScan_tunnel_miss (fuel k : ℕ) (h1 : 1 ≤ k) (h2 : k ≤ 32) :
    substepScan spriteTunnelA spriteTunnelB ⟨100, 0⟩ ⟨50, 0⟩ ⟨3/2, 0⟩ ⟨0, 0⟩ (3/200)
      (fuel + 1) k =
    substepScan spriteTunnelA spriteTunnelB ⟨100, 0⟩ ⟨50, 0⟩ ⟨3/2, 0⟩ ⟨0, 0⟩ (3/200)
      fuel (k + 1) := by
  have hk1 : (1 : ℝ) ≤ (k : ℝ) := by exact_mod_cast h1
  have hk32 : (k : ℝ) ≤ 32 := by exact_mod_cast h2
  have hpA : Vec.add spriteTunnelA.previousPosition (Vec.smul (k : ℝ) ⟨3/2, 0⟩) =
      (⟨3 * (k:ℝ) / 2, 0⟩ : Vec) := by
    ext <;> simp [spriteTunnelA, mkSprite, Vec.add, Vec.smul]
    ring
  have hpB : Vec.add spriteTunnelB.previousPosition (Vec.smul (k : ℝ) ⟨0, 0⟩) =
      (⟨50, 0⟩ : Vec) := by
    ext <;> simp [spriteTunnelB, mkSprite, Vec.add, Vec.smul]
  have hca : (spriteAtInterpolated spriteTunnelA (⟨3 * (k:ℝ) / 2, 0⟩ : Vec)).collider =
      Collider.circle Transform2D.identity ⟨1, 0, 3 * (k:ℝ) / 2, 0, 1, 0⟩ 1 :=
    updateFromSprite_circle_unit
      { spriteTunnelA with position := (⟨3 * (k:ℝ) / 2, 0⟩ : Vec) }
      Transform2D.identity ⟨1, 0, 100, 0, 1, 0⟩ 1 rfl rfl rfl
  have hcb : (spriteAtInterpolated spriteTunnelB (⟨50, 0⟩ : Vec)).collider =
      Collider.circle Transform2D.identity ⟨1, 0, 50, 0, 1, 0⟩ 1 :=
    updateFromSprite_circle_unit { spriteTunnelB with position := (⟨50, 0⟩ : Vec) }
      Transform2D.identity ⟨1, 0, 50, 0, 1, 0⟩ 1 rfl rfl rfl
  have hsep : (1 : ℝ) + 1 ≤ |50 - 3 * (k:ℝ) / 2| := by
    rw [abs_of_nonneg (by linarith : (0:ℝ) ≤ 50 - 3 * (k:ℝ) / 2)]
    linarith
  simp only [substepScan]
  rw [if_pos (by linarith : (k : ℝ) * (3/200) < 1)]
  rw [hpA, hpB, hca, hcb,
    Collider.collide_unit_x_sep (3 * (k:ℝ) / 2) 50 1 1 (by norm_num) (by norm_num) hsep]
  dsimp only
  rw [if_neg (by norm_num [Vec.zero] : ¬(Vec.zero.x ≠ 0 ∨ Vec.zero.y ≠ 0))]

theorem substepScan_tunnel_hit (fuel : ℕ) :
    substepScan spriteTunnelA spriteTunnelB ⟨100, 0⟩ ⟨50, 0⟩ ⟨3/2, 0⟩ ⟨0, 0⟩ (3/200)
      (fuel + 1) 33 =
    some (some (⟨-(3/2), 0⟩,
      { spriteTunnelA with
        position := ⟨99/2, 0⟩
        collider := Collider.circle Transform2D.identity ⟨1, 0, 99/2, 0, 1, 0⟩ 1 },
      { spriteTunnelB with
        position := ⟨50, 0⟩
        collider := Collider.circle Transform2D.identity ⟨1, 0, 50, 0, 1, 0⟩ 1 })) := by
  have hpA : Vec.add spriteTunnelA.previousPosition (Vec.smul ((33 : ℕ) : ℝ) ⟨3/2, 0⟩) =
      (⟨99/2, 0⟩ : Vec) := by
    ext <;> simp [spriteTunnelA, mkSprite, Vec.add, Vec.smul]
    norm_num
  have hpB : Vec.add spriteTunnelB.previousPosition (Vec.smul ((33 : ℕ) : ℝ) ⟨0, 0⟩) =
      (⟨50, 0⟩ : Vec) := by
    ext <;> simp [spriteTunnelB, mkSprite, Vec.add, Vec.smul]
  have hupdA : updateFromSprite spriteTunnelA.collider
      { spriteTunnelA with position := (⟨99/2, 0⟩ : Vec) } =
      Collider.circle Transform2D.identity ⟨1, 0, 99/2, 0, 1, 0⟩ 1 :=
    updateFromSprite_circle_unit { spriteTunnelA with position := (⟨99/2, 0⟩ : Vec) }
      Transform2D.identity ⟨1, 0, 100, 0, 1, 0⟩ 1 rfl rfl rfl
  have hupdB : updateFromSprite spriteTunnelB.collider
      { spriteTunnelB with position := (⟨50, 0⟩ : Vec) } =
      Collider.circle Transform2D.identity ⟨1, 0, 50, 0, 1, 0⟩ 1 :=
    updateFromSprite_circle_unit { spriteTunnelB with position := (⟨50, 0⟩ : Vec) }
      Transform2D.identity ⟨1, 0, 50, 0, 1, 0⟩ 1 rfl rfl rfl
  have ha' : spriteAtInterpolated spriteTunnelA (⟨99/2, 0⟩ : Vec) =
      { spriteTunnelA with
        position := ⟨99/2, 0⟩
        collider := Collider.circle Transform2D.identity ⟨1, 0, 99/2, 0, 1, 0⟩ 1 } := by
    unfold spriteAtInterpolated
    dsimp only
    rw [hupdA]
  have hb' : spriteAtInterpolated spriteTunnelB (⟨50, 0⟩ : Vec) =
      { spriteTunnelB with
        position := ⟨50, 0⟩
        collider := Collider.circle Transform2D.identity ⟨1, 0, 50, 0, 1, 0⟩ 1 } := by
    unfold spriteAtInterpolated
    dsimp only
    rw [hupdB]
  have hcol : Collider.collide (Collider.circle Transform2D.identity ⟨1, 0, 99/2, 0, 1, 0⟩ 1)
      (Collider.circle Transform2D.identity ⟨1, 0, 50, 0, 1, 0⟩ 1) =
      some ⟨-(3/2), 0⟩ := by
    rw [Collider.collide_unit_x_hit (99/2) 50 1 1 (by norm_num) (by norm_num)
      (by norm_num)
      (by rw [abs_of_nonneg (by norm_num : (0:ℝ) ≤ 50 - 99/2)]; norm_num),
      abs_of_nonneg (by norm_num : (0:ℝ) ≤ 50 - 99/2)]
    congr 1
    ext <;> norm_num [Vec.smul]
  simp only [substepScan]
  rw [if_pos (by norm_num : (((33 : ℕ)) : ℝ) * (3/200) < 1)]
  rw [hpA, hpB, ha', hb']
  dsimp only
  rw [hcol]
  dsimp only
  rw [if_pos (show ((⟨-(3/2), 0⟩ : Vec)).x ≠ 0 ∨ ((⟨-(3/2), 0⟩ : Vec)).y ≠ 0 from
    Or.inl (by norm_num))]
  rw [if_neg (by decide : ¬(spriteTunnelA.immovable = true)),
    if_neg (by decide : ¬(spriteTunnelB.immovable = true))]

theorem substepScan_tunnel_from (n : ℕ) :
    n ≤ 32 →
    substepScan spriteTunnelA spriteTunnelB ⟨100, 0⟩ ⟨50, 0⟩ ⟨3/2, 0⟩ ⟨0, 0⟩ (3/200)
      (35 + n) (33 - n) =
    some (some (⟨-(3/2), 0⟩,
      { spriteTunnelA with
        position := ⟨99/2, 0⟩
        collider := Collider.circle Transform2D.identity ⟨1, 0, 99/2, 0, 1, 0⟩ 1 },
      { spriteTunnelB with
        position := ⟨50, 0⟩
        collider := Collider.circle Transform2D.identity ⟨1, 0, 50, 0, 1, 0⟩ 1 })) := by
  induction n with
  | zero => exact fun _ => substepScan_tunnel_hit 34
  | succ m ih =>
      intro h
      have step := substepScan_tunnel_miss (35 + m) (32 - m) (by omega) (by omega)
      rw [show 35 + (m + 1) = (35 + m) + 1 by omega, show 33 - (m + 1) = 32 - m by omega,
        step, show 32 - m + 1 = 33 - m by omega]
      exact ih (by omega)

theorem substepScan_tunnel_result :
    substepScan spriteTunnelA spriteTunnelB ⟨100, 0⟩ ⟨50, 0⟩ ⟨3/2, 0⟩ ⟨0, 0⟩ (3/200) 67 1 =
    some (some (⟨-(3/2), 0⟩,
      { spriteTunnelA with
        position := ⟨99/2, 0⟩
        collider := Collider.circle Transform2D.identity ⟨1, 0, 99/2, 0, 1, 0⟩ 1 },
      { spriteTunnelB with
        position := ⟨50, 0⟩
        collider := Collider.circle Transform2D.identity ⟨1, 0, 50, 0, 1, 0⟩ 1 })) :=
  substepScan_tunnel_from 32 (by norm_num)

theorem findDisplacement_tunnel :
    findDisplacement spriteTunnelA spriteTunnelB =
      some (⟨-(3/2), 0⟩,
        { spriteTunnelA with
            position := ⟨99/2, 0⟩
            collider := Collider.circle Transform2D.identity ⟨1, 0, 99/2, 0, 1, 0⟩ 1 },
        { spriteTunnelB with
            position := ⟨50, 0⟩
            collider := Collider.circle Transform2D.identity ⟨1, 0, 50, 0, 1, 0⟩ 1 }) := by
  have hmag : Vec.mag (Vec.sub spriteTunnelA.velocity spriteTunnelB.velocity) = 100 := by
    rw [(by ext <;> norm_num [spriteTunnelA, spriteTunnelB, mkSprite, Vec.sub] :
      Vec.sub spriteTunnelA.velocity spriteTunnelB.velocity = (⟨100, 0⟩ : Vec)),
      Vec.mag_mk_x, abs_of_nonneg (by norm_num : (0:ℝ) ≤ 100)]
  unfold findDisplacement
  rw [broadPhase_tunnel]
  dsimp only
  rw [if_pos (show ((⟨0, -2⟩ : Vec)).x ≠ 0 ∨ ((⟨0, -2⟩ : Vec)).y ≠ 0 from
    Or.inr (by norm_num))]
  rw [if_pos (show Vec.mag (Vec.sub spriteTunnelA.velocity spriteTunnelB.velocity) ≠ 0 ∧
      substepTimestep spriteTunnelA spriteTunnelB < 1 from
    ⟨by rw [hmag]; norm_num, by rw [substepTimestep_tunnel]; norm_num⟩)]
  have hda : Vec.smul (3/200)
      (Vec.sub spriteTunnelA.position spriteTunnelA.previousPosition) = (⟨3/2, 0⟩ : Vec) := by
    ext <;> norm_num [spriteTunnelA, mkSprite, Vec.smul, Vec.sub]
  have hdb : Vec.smul (3/200)
      (Vec.sub spriteTunnelB.position spriteTunnelB.previousPosition) = (⟨0, 0⟩ : Vec) := by
    ext <;> norm_num [spriteTunnelB, mkSprite, Vec.smul, Vec.sub]
  have hoa : spriteTunnelA.position = (⟨100, 0⟩ : Vec) := rfl
  have hob : spriteTunnelB.position = (⟨50, 0⟩ : Vec) := rfl
  rw [substepTimestep_tunnel, hda, hdb, hoa, hob, substepScan_tunnel_result]

/-- C4: in the tunnelling regression scenario — a unit circle that moved
from (0,0) to (100,0) this step tested against a stationary unit circle at
(50,0) — the sub-stepped narrow phase returns a nonzero displacement, while
a single SAT test with both colliders refreshed at the frame-end positions,
or at the frame-start positions, returns the zero vector (no overlap
reported). -/
theorem C4_tunneling_regression :
    (∃ p : Vec × Sprite × Sprite, findDisplacement spriteTunnelA spriteTunnelB = some p ∧
      (p.1.x ≠ 0 ∨ p.1.y ≠ 0)) ∧
    Collider.collide (updateFromSprite spriteTunnelA.collider spriteTunnelA)
      (updateFromSprite spriteTunnelB.collider spriteTunnelB) = some Vec.zero ∧
    Collider.collide
      (updateFromSprite spriteTunnelA.collider
        { spriteTunnelA with position := spriteTunnelA.previousPosition })
      (updateFromSprite spriteTunnelB.collider
        { spriteTunnelB with position := spriteTunnelB.previousPosition }) =
      some Vec.zero := by
  have hA : updateFromSprite spriteTunnelA.collider spriteTunnelA =
      Collider.circle Transform2D.identity ⟨1, 0, 100, 0, 1, 0⟩ 1 :=
    updateFromSprite_circle_unit spriteTunnelA Transform2D.identity
      ⟨1, 0, 100, 0, 1, 0⟩ 1 rfl rfl rfl
  have hB : updateFromSprite spriteTunnelB.collider spriteTunnelB =
      Collider.circle Transform2D.identity ⟨1, 0, 50, 0, 1, 0⟩ 1 :=
    updateFromSprite_circle_unit spriteTunnelB Transform2D.identity
      ⟨1, 0, 50, 0, 1, 0⟩ 1 rfl rfl rfl
  have hA' : updateFromSprite spriteTunnelA.collider
      { spriteTunnelA with position := spriteTunnelA.previousPosition } =
      Collider.circle Transform2D.identity ⟨1, 0, 0, 0, 1, 0⟩ 1 :=
    updateFromSprite_circle_unit
      { spriteTunnelA with position := spriteTunnelA.previousPosition }
      Transform2D.identity ⟨1, 0, 100, 0, 1, 0⟩ 1 rfl rfl rfl
  have hB' : updateFromSprite spriteTunnelB.collider
      { spriteTunnelB with position := spriteTunnelB.previousPosition } =
      Collider.circle Transform2D.identity ⟨1, 0, 50, 0, 1, 0⟩ 1 :=
    updateFromSprite_circle_unit
      { spriteTunnelB with position := spriteTunnelB.previousPosition }
      Transform2D.identity ⟨1, 0, 50, 0, 1, 0⟩ 1 rfl rfl rfl
  refine ⟨⟨_, findDisplacement_tunnel, Or.inl (by norm_num)⟩, ?_, ?_⟩
  · rw [hA, hB,
      Collider.collide_unit_x_sep 100 50 1 1 (by norm_num) (by norm_num)
        (by rw [abs_sub_comm, abs_of_nonneg (by norm_num : (0:ℝ) ≤ 100 - 50)]; norm_num)]
  · rw [hA', hB',
      Collider.collide_unit_x_sep 0 50 1 1 (by norm_num) (by norm_num)
        (by rw [abs_of_nonneg (by norm_num : (0:ℝ) ≤ 50 - 0)]; norm_num)]

theorem substepScan_shape (a b : Sprite) (aOrig bOrig aDelta bDelta : Vec) (ts : ℝ) :
    ∀ (fuel k : ℕ) (d : Vec) (a' b' : Sprite),
      substepScan a b aOrig bOrig aDelta bDelta ts fuel k = some (some (d, a', b')) →
      a'.velocity = a.velocity ∧ b'.velocity = b.velocity ∧
      (a.immovable = true → a'.position = aOrig) ∧
      (b.immovable = true → b'.position = bOrig) := by
  intro fuel
  induction fuel with
  | zero =>
      intro k d a' b' h
      exact absurd h (by simp [substepScan])
  | succ m ih =>
      intro k d a' b' h
      simp only [substepScan] at h
      by_cases hc : (k : ℝ) * ts < 1
      · rw [if_pos hc] at h
        cases hcol : Collider.collide
            (spriteAtInterpolated a
              (Vec.add a.previousPosition (Vec.smul (k : ℝ) aDelta))).collider
            (spriteAtInterpolated b
              (Vec.add b.previousPosition (Vec.smul (k : ℝ) bDelta))).collider with
        | none => rw [hcol] at h; simp at h
        | some disp =>
            rw [hcol] at h
            dsimp only at h
            by_cases hnz : disp.x ≠ 0 ∨ disp.y ≠ 0
            · rw [if_pos hnz] at h
              simp only [Option.some.injEq, Prod.mk.injEq] at h
              obtain ⟨-, hA, hB⟩ := h
              subst hA
              subst hB
              refine ⟨?_, ?_, ?_, ?_⟩
              · by_cases him : a.immovable = true
                · rw [if_pos him]; rfl
                · rw [if_neg him]; rfl
              · by_cases him : b.immovable = true
                · rw [if_pos him]; rfl
                · rw [if_neg him]; rfl
              · intro him; rw [if_pos him]
              · intro him; rw [if_pos him]
            · rw [if_neg hnz] at h
              exact ih (k + 1) d a' b' h
      · rw [if_neg hc] at h
        simp at h

theorem directCheck_shape (a b : Sprite) (d : Vec) (a1 b1 : Sprite)
    (h : directCheck a b = some (d, a1, b1)) :
    a1.velocity = a.velocity ∧ b1.velocity = b.velocity ∧
    a1.position = a.position ∧ b1.position = b.position := by
  unfold directCheck at h
  dsimp only at h
  cases hc : Collider.collide (updateFromSprite a.collider a)
      (updateFromSprite b.collider b) with
  | none => rw [hc] at h; simp at h
  | some dd =>
      rw [hc] at h
      simp only [Option.map_some', Option.some.injEq, Prod.mk.injEq] at h
      obtain ⟨-, hA, hB⟩ := h
      subst hA
      subst hB
      exact ⟨rfl, rfl, rfl, rfl⟩

theorem findDisplacement_shape (a b : Sprite) (d : Vec) (a1 b1 : Sprite)
    (h : findDisplacement a b = some (d, a1, b1)) :
    a1.velocity = a.velocity ∧ b1.velocity = b.velocity ∧
    (a.immovable = true → a1.position = a.position) ∧
    (b.immovable = true → b1.position = b.position) ∧
    (¬ (Vec.mag (Vec.sub a.velocity b.velocity) ≠ 0 ∧ substepTimestep a b < 1) →
      a1.position = a.position ∧ b1.position = b.position) := by
  unfold findDisplacement at h
  cases hb : Collider.collide (getBroadPhaseCollider a) (getBroadPhaseCollider b) with
  | none => rw [hb] at h; simp at h
  | some bd =>
      rw [hb] at h
      dsimp only at h
      have hdir : directCheck a b = some (d, a1, b1) →
          a1.velocity = a.velocity ∧ b1.velocity = b.velocity ∧
          (a.immovable = true → a1.position = a.position) ∧
          (b.immovable = true → b1.position = b.position) ∧
          (¬ (Vec.mag (Vec.sub a.velocity b.velocity) ≠ 0 ∧ substepTimestep a b < 1) →
            a1.position = a.position ∧ b1.position = b.position) := by
        intro hdc
        obtain ⟨h1, h2, h3, h4⟩ := directCheck_shape a b d a1 b1 hdc
        exact ⟨h1, h2, fun _ => h3, fun _ => h4, fun _ => ⟨h3, h4⟩⟩
      by_cases hnz : bd.x ≠ 0 ∨ bd.y ≠ 0
      · rw [if_pos hnz] at h
        by_cases hg : Vec.mag (Vec.sub a.velocity b.velocity) ≠ 0 ∧ substepTimestep a b < 1
        · rw [if_pos hg] at h
          cases hs : substepScan a b a.position b.position
              (Vec.smul (substepTimestep a b) (Vec.sub a.position a.previousPosition))
              (Vec.smul (substepTimestep a b) (Vec.sub b.position b.previousPosition))
              (substepTimestep a b) 67 1 with
          | none => rw [hs] at h; simp at h
          | some o =>
              rw [hs] at h
              cases o with
              | none =>
                  dsimp only at h
                  exact hdir h
              | some r =>
                  dsimp only at h
                  simp only [Option.some.injEq] at h
                  subst h
                  obtain ⟨h1, h2, h3, h4⟩ :=
                    substepScan_shape a b a.position b.position _ _ _ 67 1 d a1 b1 hs
                  exact ⟨h1, h2, h3, h4, fun hng => absurd hg hng⟩
        · rw [if_neg hg] at h
          exact hdir h
      · rw [if_neg hnz] at h
        exact hdir h

/-- C6 amended: the overlap policy never mutates either sprite's velocity,
and it never mutates positions in the direct (single-SAT) path — taken
whenever the relative velocity is zero or the adaptive timestep is not
below 1 — nor the position of an immovable sprite in any path.  (The
sub-stepped path, by contrast, leaves a movable sprite at the interpolated
sub-step position on a hit: see the counterexample.) -/
theorem C6_overlap_mutation (a b : Sprite) (cb : Bool) :
    ∀ r, collideWithOne .overlap a b cb = some r →
      r.2.1.velocity = a.velocity ∧ r.2.2.1.velocity = b.velocity ∧
      (a.immovable = true → r.2.1.position = a.position) ∧
      (b.immovable = true → r.2.2.1.position = b.position) ∧
      (¬ (Vec.mag (Vec.sub a.velocity b.velocity) ≠ 0 ∧ substepTimestep a b < 1) →
        r.2.1.position = a.position ∧ r.2.2.1.position = b.position) := by
  intro r hr
  unfold collideWithOne at hr
  cases hfd : findDisplacement a b with
  | none => rw [hfd] at hr; simp at hr
  | some t =>
      obtain ⟨d, a1, b1⟩ := t
      rw [hfd] at hr
      dsimp only at hr
      have hshape := findDisplacement_shape a b d a1 b1 hfd
      by_cases hz : d.x = 0 ∧ d.y = 0
      · rw [if_pos hz] at hr
        simp only [Option.some.injEq] at hr
        subst hr
        exact hshape
      · rw [if_neg hz] at hr
        have hn1 : ¬(CollisionType.overlap = CollisionType.displace ∧
            ¬ b.immovable = true) := fun hh => by cases hh.1
        have hn2 : ¬((CollisionType.overlap = CollisionType.collideT ∨
            CollisionType.overlap = CollisionType.bounce ∨
            CollisionType.overlap = CollisionType.bounceOff) ∧ ¬ a.immovable = true) :=
          fun hh => by rcases hh.1 with h | h | h <;> cases h
        have hn3 : ¬(CollisionType.overlap = CollisionType.collideT) := fun h => by cases h
        have hn4 : ¬(CollisionType.overlap = CollisionType.bounceOff) := fun h => by cases h
        have hn5 : ¬(CollisionType.overlap = CollisionType.collideT ∨
            CollisionType.overlap = CollisionType.bounce ∨
            CollisionType.overlap = CollisionType.bounceOff) :=
          fun hh => by rcases hh with h | h | h <;> cases h
        rw [if_neg hn1, if_neg hn2, if_neg hn3, if_neg hn4, if_neg hn5] at hr
        simp only [Option.some.injEq] at hr
        subst hr
        exact hshape

theorem collideWithOne_overlap_tunnel_eval :
    collideWithOne .overlap spriteTunnelA spriteTunnelB true =
      some (true,
        { spriteTunnelA with
            position := ⟨99/2, 0⟩
            collider := Collider.circle Transform2D.identity ⟨1, 0, 99/2, 0, 1, 0⟩ 1 },
        { spriteTunnelB with
            position := ⟨50, 0⟩
            collider := Collider.circle Transform2D.identity ⟨1, 0, 50, 0, 1, 0⟩ 1 },
        1) := by
  unfold collideWithOne
  rw [findDisplacement_tunnel]
  dsimp only
  split
  · next hc => exact absurd hc (by rintro ⟨h, -⟩; norm_num at h)
  · have h2 : (CollisionType.overlap = CollisionType.displace) = False := eq_false (by decide)
    have h3 : (CollisionType.overlap = CollisionType.collideT ∨
        CollisionType.overlap = CollisionType.bounce ∨
        CollisionType.overlap = CollisionType.bounceOff) = False := eq_false (by decide)
    have h4 : (CollisionType.overlap = CollisionType.collideT) = False := eq_false (by decide)
    have h5 : (CollisionType.overlap = CollisionType.bounceOff) = False := eq_false (by decide)
    have h6 : (CollisionType.overlap ≠ CollisionType.isTouching) = True := eq_true (by decide)
    have h7 : (CollisionType.overlap = CollisionType.bounce) = False := eq_false (by decide)
    norm_num [h2, h3, h4, h5, h6, h7, spriteTunnelA, spriteTunnelB, mkSprite]

/-- C6 counterexample: in the tunnelling scenario the overlap policy (swept
sub-stepped path) reports the touch but leaves the moving sprite at the
interpolated sub-step position (49.5, 0) instead of its position (100, 0):
the overlap query does mutate a sprite's position. -/
theorem C6_overlap_moves_counterexample :
    ∃ r, collideWithOne .overlap spriteTunnelA spriteTunnelB true = some r ∧
      r.2.1.position ≠ spriteTunnelA.position := by
  refine ⟨_, collideWithOne_overlap_tunnel_eval, ?_⟩
  intro hc
  have hx : (99 : ℝ) / 2 = 100 := congrArg Vec.x hc
  norm_num at hx

/-- Witness for the amended C6: the static overlapping pair (zero relative
velocity, so the direct path is taken): velocities and positions of both
sprites are untouched by the overlap query. -/
theorem C6_overlap_mutation_witness :
    ((true,
      { spriteStaticA with collider := Collider.circle Transform2D.identity ⟨1, 0, 0, 0, 1, 0⟩ 1 },
      { spriteStaticB with collider := Collider.circle Transform2D.identity ⟨1, 0, 1, 0, 1, 0⟩ 1 },
      (1 : ℕ)) : Bool × Sprite × Sprite × ℕ).2.1.velocity = spriteStaticA.velocity ∧
    ((true,
      { spriteStaticA with collider := Collider.circle Transform2D.identity ⟨1, 0, 0, 0, 1, 0⟩ 1 },
      { spriteStaticB with collider := Collider.circle Transform2D.identity ⟨1, 0, 1, 0, 1, 0⟩ 1 },
      (1 : ℕ)) : Bool × Sprite × Sprite × ℕ).2.2.1.velocity = spriteStaticB.velocity ∧
    (spriteStaticA.immovable = true →
      ((true,
        { spriteStaticA with collider := Collider.circle Transform2D.identity ⟨1, 0, 0, 0, 1, 0⟩ 1 },
        { spriteStaticB with collider := Collider.circle Transform2D.identity ⟨1, 0, 1, 0, 1, 0⟩ 1 },
        (1 : ℕ)) : Bool × Sprite × Sprite × ℕ).2.1.position = spriteStaticA.position) ∧
    (spriteStaticB.immovable = true →
      ((true,
        { spriteStaticA with collider := Collider.circle Transform2D.identity ⟨1, 0, 0, 0, 1, 0⟩ 1 },
        { spriteStaticB with collider := Collider.circle Transform2D.identity ⟨1, 0, 1, 0, 1, 0⟩ 1 },
        (1 : ℕ)) : Bool × Sprite × Sprite × ℕ).2.2.1.position = spriteStaticB.position) ∧
    (¬ (Vec.mag (Vec.sub spriteStaticA.velocity spriteStaticB.velocity) ≠ 0 ∧
        substepTimestep spriteStaticA spriteStaticB < 1) →
      ((true,
        { spriteStaticA with collider := Collider.circle Transform2D.identity ⟨1, 0, 0, 0, 1, 0⟩ 1 },
        { spriteStaticB with collider := Collider.circle Transform2D.identity ⟨1, 0, 1, 0, 1, 0⟩ 1 },
        (1 : ℕ)) : Bool × Sprite × Sprite × ℕ).2.1.position = spriteStaticA.position ∧
      ((true,
        { spriteStaticA with collider := Collider.circle Transform2D.identity ⟨1, 0, 0, 0, 1, 0⟩ 1 },
        { spriteStaticB with collider := Collider.circle Transform2D.identity ⟨1, 0, 1, 0, 1, 0⟩ 1 },
        (1 : ℕ)) : Bool × Sprite × Sprite × ℕ).2.2.1.position = spriteStaticB.position) :=
  C6_overlap_mutation spriteStaticA spriteStaticB true
    (true,
      { spriteStaticA with collider := Collider.circle Transform2D.identity ⟨1, 0, 0, 0, 1, 0⟩ 1 },
      { spriteStaticB with collider := Collider.circle Transform2D.identity ⟨1, 0, 1, 0, 1, 0⟩ 1 },
      1) collideWithOne_overlap_static_eval

theorem Collider.obbPotentialAxes_shear :
    Collider.obbPotentialAxes ⟨1, 3/5, 0, 0, 4/5, 0⟩ Transform2D.identity 4 4 =
      (⟨4, 0⟩, ⟨12/5, 16/5⟩) := by
  unfold Collider.obbPotentialAxes Collider.obbVertices
  dsimp only
  ext <;> norm_num [Transform2D.mult, Transform2D.apply, Transform2D.identity, Vec.sub]

theorem Collider.obbHalfDiagonals_shear :
    Collider.obbHalfDiagonals ⟨1, 3/5, 0, 0, 4/5, 0⟩ Transform2D.identity 4 4 =
      (⟨4/5, -(8/5)⟩, ⟨16/5, 8/5⟩) := by
  unfold Collider.obbHalfDiagonals Collider.obbVertices
  dsimp only
  ext <;> norm_num [Transform2D.mult, Transform2D.apply, Transform2D.identity, Vec.sub,
    Vec.zero]

theorem Collider.halfDiagonals_shear :
    Collider.halfDiagonals (Collider.obb ⟨1, 3/5, 0, 0, 4/5, 0⟩ Transform2D.identity 4 4) =
      (⟨4/5, -(8/5)⟩, ⟨16/5, 8/5⟩) := Collider.obbHalfDiagonals_shear

theorem Collider.center_obb_shear :
    Collider.center (Collider.obb ⟨1, 3/5, 0, 0, 4/5, 0⟩ Transform2D.identity 4 4) =
      ⟨0, 0⟩ := by
  unfold Collider.center Collider.offsetOf
  ext <;> norm_num [Collider.lt, Collider.pt, Transform2D.apply, Transform2D.identity,
    Vec.zero]

theorem Collider.circleBoxAxis_shear1 :
    Collider.circleBoxAxis ⟨4/5, 2/5⟩ ⟨0, 0⟩ (⟨4/5, -(8/5)⟩, ⟨16/5, 8/5⟩) = ⟨0, -2⟩ := by
  unfold Collider.circleBoxAxis
  norm_num [Collider.closestOf, Vec.magSq, Vec.sub, Vec.add]

theorem Collider.circleBoxAxis_shear2 :
    Collider.circleBoxAxis ⟨4/5, 18/5⟩ ⟨0, 0⟩ (⟨4/5, -(8/5)⟩, ⟨16/5, 8/5⟩) =
      ⟨-(8/5), -2⟩ := by
  unfold Collider.circleBoxAxis
  norm_num [Collider.closestOf, Vec.magSq, Vec.sub, Vec.add]

theorem Collider.notParallel_e1_e2 : ¬ Vec.isParallel ⟨4, 0⟩ ⟨12/5, 16/5⟩ := by
  rintro (⟨h, -⟩ | ⟨-, h⟩ | ⟨-, -, h⟩)
  · rw [abs_lt] at h; norm_num at h
  · rw [abs_lt] at h; norm_num at h
  · rw [abs_lt] at h; norm_num at h

theorem Collider.axesForShapes_shear1 :
    Collider.axesForShapes
      (Collider.circle Transform2D.identity ⟨1, 0, 4/5, 0, 1, 2/5⟩ 2)
      (Collider.obb ⟨1, 3/5, 0, 0, 4/5, 0⟩ Transform2D.identity 4 4) =
      [⟨0, -2⟩, ⟨4, 0⟩, ⟨12/5, 16/5⟩] := by
  have hp1 : ¬ Vec.isParallel ⟨0, -2⟩ ⟨4, 0⟩ := by
    rintro (⟨-, h⟩ | ⟨h, -⟩ | ⟨-, h, -⟩)
    · rw [abs_lt] at h; norm_num at h
    · rw [abs_lt] at h; norm_num at h
    · exact h rfl
  have hp2 : ¬ Vec.isParallel ⟨0, -2⟩ ⟨12/5, 16/5⟩ := by
    rintro (⟨-, h⟩ | ⟨h, -⟩ | ⟨-, -, h⟩)
    · rw [abs_lt] at h; norm_num at h
    · rw [abs_lt] at h; norm_num at h
    · rw [abs_lt] at h; norm_num at h
  unfold Collider.axesForShapes Collider.getCandidateAxes
  dsimp only
  rw [Collider.obbPotentialAxes_shear, Collider.halfDiagonals_shear,
    Collider.center_obb_shear, Collider.center_circle_unit, Collider.circleBoxAxis_shear1]
  norm_num [Collider.dedupParallel, hp1, hp2, Collider.notParallel_e1_e2, Vec.zero]

theorem Collider.axesForShapes_shear2 :
    Collider.axesForShapes
      (Collider.circle Transform2D.identity ⟨1, 0, 4/5, 0, 1, 18/5⟩ 2)
      (Collider.obb ⟨1, 3/5, 0, 0, 4/5, 0⟩ Transform2D.identity 4 4) =
      [⟨-(8/5), -2⟩, ⟨4, 0⟩, ⟨12/5, 16/5⟩] := by
  have hq1 : ¬ Vec.isParallel ⟨-(8/5), -2⟩ ⟨4, 0⟩ := by
    rintro (⟨h, -⟩ | ⟨h, -⟩ | ⟨-, h, -⟩)
    · rw [abs_lt] at h; norm_num at h
    · rw [abs_lt] at h; norm_num at h
    · exact h rfl
  have hq2 : ¬ Vec.isParallel ⟨-(8/5), -2⟩ ⟨12/5, 16/5⟩ := by
    rintro (⟨h, -⟩ | ⟨h, -⟩ | ⟨-, -, h⟩)
    · rw [abs_lt] at h; norm_num at h
    · rw [abs_lt] at h; norm_num at h
    · rw [abs_lt] at h; norm_num at h
  unfold Collider.axesForShapes Collider.getCandidateAxes
  dsimp only
  rw [Collider.obbPotentialAxes_shear, Collider.halfDiagonals_shear,
    Collider.center_obb_shear, Collider.center_circle_unit, Collider.circleBoxAxis_shear2]
  norm_num [Collider.dedupParallel, hq1, hq2, Collider.notParallel_e1_e2, Vec.zero]

theorem Vec.mag_shear_e2 : Vec.mag ⟨12/5, 16/5⟩ = 4 := by
  unfold Vec.mag
  rw [show (12/5 : ℝ) * (12/5) + (16/5) * (16/5) = 4 * 4 by norm_num,
    Real.sqrt_mul_self (by norm_num : (0:ℝ) ≤ 4)]

theorem Collider.radiusOnAxis_shearCircle (tx ty : ℝ) (ax : Vec) :
    Collider.radiusOnAxis (Collider.circle Transform2D.identity ⟨1, 0, tx, 0, 1, ty⟩ 2) ax
      = 2 := by
  rw [Collider.radiusOnAxis_circle, Collider.scaledRadiusAux_unit,
    abs_of_nonneg (by norm_num : (0:ℝ) ≤ 2)]

theorem Collider.radiusOnAxis_shearObb_vert1 :
    Collider.radiusOnAxis (Collider.obb ⟨1, 3/5, 0, 0, 4/5, 0⟩ Transform2D.identity 4 4)
      ⟨0, -2⟩ = 8/5 := by
  unfold Collider.radiusOnAxis
  dsimp only
  rw [Collider.obbHalfDiagonals_shear]
  dsimp only
  rw [(by unfold Vec.project Vec.dot Vec.smul; ext <;> norm_num :
      Vec.project ⟨4/5, -(8/5)⟩ ⟨0, -2⟩ = (⟨0, -(8/5)⟩ : Vec)),
    (by unfold Vec.project Vec.dot Vec.smul; ext <;> norm_num :
      Vec.project ⟨16/5, 8/5⟩ ⟨0, -2⟩ = (⟨0, 8/5⟩ : Vec)),
    Vec.mag_mk_y, Vec.mag_mk_y, abs_neg, abs_of_nonneg (by norm_num : (0:ℝ) ≤ 8/5),
    max_self]

theorem Collider.radiusOnAxis_shearObb_e1 :
    Collider.radiusOnAxis (Collider.obb ⟨1, 3/5, 0, 0, 4/5, 0⟩ Transform2D.identity 4 4)
      ⟨4, 0⟩ = 16/5 := by
  unfold Collider.radiusOnAxis
  dsimp only
  rw [Collider.obbHalfDiagonals_shear]
  dsimp only
  rw [(by unfold Vec.project Vec.dot Vec.smul; ext <;> norm_num :
      Vec.project ⟨4/5, -(8/5)⟩ ⟨4, 0⟩ = (⟨4/5, 0⟩ : Vec)),
    (by unfold Vec.project Vec.dot Vec.smul; ext <;> norm_num :
      Vec.project ⟨16/5, 8/5⟩ ⟨4, 0⟩ = (⟨16/5, 0⟩ : Vec)),
    Vec.mag_mk_x, Vec.mag_mk_x, abs_of_nonneg (by norm_num : (0:ℝ) ≤ 4/5),
    abs_of_nonneg (by norm_num : (0:ℝ) ≤ 16/5),
    max_eq_right (by norm_num : (4:ℝ)/5 ≤ 16/5)]

theorem Collider.radiusOnAxis_shearObb_e2 :
    Collider.radiusOnAxis (Collider.obb ⟨1, 3/5, 0, 0, 4/5, 0⟩ Transform2D.identity 4 4)
      ⟨12/5, 16/5⟩ = 16/5 := by
  unfold Collider.radiusOnAxis
  dsimp only
  rw [Collider.obbHalfDiagonals_shear]
  dsimp only
  rw [(by unfold Vec.project Vec.dot; norm_num :
      Vec.project ⟨4/5, -(8/5)⟩ ⟨12/5, 16/5⟩ = Vec.smul (-(1/5)) ⟨12/5, 16/5⟩),
    (by unfold Vec.project Vec.dot; norm_num :
      Vec.project ⟨16/5, 8/5⟩ ⟨12/5, 16/5⟩ = Vec.smul (4/5) ⟨12/5, 16/5⟩),
    Vec.mag_smul, Vec.mag_smul, Vec.mag_shear_e2, abs_neg,
    abs_of_nonneg (by norm_num : (0:ℝ) ≤ 1/5),
    abs_of_nonneg (by norm_num : (0:ℝ) ≤ 4/5),
    max_eq_right (by norm_num : (1:ℝ)/5 * 4 ≤ 4/5 * 4)]
  norm_num

theorem collide_shear_eval1 :
    Collider.collide (Collider.circle Transform2D.identity ⟨1, 0, 4/5, 0, 1, 2/5⟩ 2)
      (Collider.obb ⟨1, 3/5, 0, 0, 4/5, 0⟩ Transform2D.identity 4 4) =
      some ⟨0, 16/5⟩ := by
  unfold Collider.collide
  have hdelta : Vec.sub
      (Collider.center (Collider.obb ⟨1, 3/5, 0, 0, 4/5, 0⟩ Transform2D.identity 4 4))
      (Collider.center (Collider.circle Transform2D.identity ⟨1, 0, 4/5, 0, 1, 2/5⟩ 2)) =
      ⟨-(4/5), -(2/5)⟩ := by
    rw [Collider.center_obb_shear, Collider.center_circle_unit]
    ext <;> norm_num [Vec.sub]
  rw [Collider.axesForShapes_shear1, hdelta]
  have hv1 : Collider.overlapOn
      (Collider.circle Transform2D.identity ⟨1, 0, 4/5, 0, 1, 2/5⟩ 2)
      (Collider.obb ⟨1, 3/5, 0, 0, 4/5, 0⟩ Transform2D.identity 4 4)
      ⟨-(4/5), -(2/5)⟩ ⟨0, -2⟩ = 16/5 := by
    unfold Collider.overlapOn
    rw [Collider.radiusOnAxis_shearCircle, Collider.radiusOnAxis_shearObb_vert1,
      (by unfold Vec.project Vec.dot Vec.smul; ext <;> norm_num :
        Vec.project ⟨-(4/5), -(2/5)⟩ ⟨0, -2⟩ = (⟨0, -(2/5)⟩ : Vec)),
      Vec.mag_mk_y, abs_neg, abs_of_nonneg (by norm_num : (0:ℝ) ≤ 2/5)]
    norm_num
  have hv2 : Collider.overlapOn
      (Collider.circle Transform2D.identity ⟨1, 0, 4/5, 0, 1, 2/5⟩ 2)
      (Collider.obb ⟨1, 3/5, 0, 0, 4/5, 0⟩ Transform2D.identity 4 4)
      ⟨-(4/5), -(2/5)⟩ ⟨4, 0⟩ = 22/5 := by
    unfold Collider.overlapOn
    rw [Collider.radiusOnAxis_shearCircle, Collider.radiusOnAxis_shearObb_e1,
      (by unfold Vec.project Vec.dot Vec.smul; ext <;> norm_num :
        Vec.project ⟨-(4/5), -(2/5)⟩ ⟨4, 0⟩ = (⟨-(4/5), 0⟩ : Vec)),
      Vec.mag_mk_x, abs_neg, abs_of_nonneg (by norm_num : (0:ℝ) ≤ 4/5)]
    norm_num
  have hv3 : Collider.overlapOn
      (Collider.circle Transform2D.identity ⟨1, 0, 4/5, 0, 1, 2/5⟩ 2)
      (Collider.obb ⟨1, 3/5, 0, 0, 4/5, 0⟩ Transform2D.identity 4 4)
      ⟨-(4/5), -(2/5)⟩ ⟨12/5, 16/5⟩ = 22/5 := by
    unfold Collider.overlapOn
    rw [Collider.radiusOnAxis_shearCircle, Collider.radiusOnAxis_shearObb_e2,
      (by unfold Vec.project Vec.dot; norm_num :
        Vec.project ⟨-(4/5), -(2/5)⟩ ⟨12/5, 16/5⟩ = Vec.smul (-(1/5)) ⟨12/5, 16/5⟩),
      Vec.mag_smul, Vec.mag_shear_e2, abs_neg,
      abs_of_nonneg (by norm_num : (0:ℝ) ≤ 1/5)]
    norm_num
  have hst1 : Collider.storedAxis ⟨-(4/5), -(2/5)⟩ ⟨0, -2⟩ = ⟨0, -(2/5)⟩ := by
    unfold Collider.storedAxis
    rw [(by unfold Vec.project Vec.dot Vec.smul; ext <;> norm_num :
      Vec.project ⟨-(4/5), -(2/5)⟩ ⟨0, -2⟩ = (⟨0, -(2/5)⟩ : Vec))]
    rw [if_neg (by intro hc; have := congrArg Vec.y hc; norm_num [Vec.zero] at this)]
  rw [Collider.collideLoop_cons_none
      (Collider.circle Transform2D.identity ⟨1, 0, 4/5, 0, 1, 2/5⟩ 2)
      (Collider.obb ⟨1, 3/5, 0, 0, 4/5, 0⟩ Transform2D.identity 4 4)
      ⟨-(4/5), -(2/5)⟩ ⟨0, -2⟩ [⟨4, 0⟩, ⟨12/5, 16/5⟩]
      (by rw [hv1]; norm_num),
    hv1, hst1]
  rw [Collider.collideLoop_cons_some_ge
      (Collider.circle Transform2D.identity ⟨1, 0, 4/5, 0, 1, 2/5⟩ 2)
      (Collider.obb ⟨1, 3/5, 0, 0, 4/5, 0⟩ Transform2D.identity 4 4)
      ⟨-(4/5), -(2/5)⟩ ⟨4, 0⟩ [⟨12/5, 16/5⟩] (16/5) ⟨0, -(2/5)⟩
      (by rw [hv2]; norm_num) (by rw [hv2]; norm_num)]
  rw [Collider.collideLoop_cons_some_ge
      (Collider.circle Transform2D.identity ⟨1, 0, 4/5, 0, 1, 2/5⟩ 2)
      (Collider.obb ⟨1, 3/5, 0, 0, 4/5, 0⟩ Transform2D.identity 4 4)
      ⟨-(4/5), -(2/5)⟩ ⟨12/5, 16/5⟩ [] (16/5) ⟨0, -(2/5)⟩
      (by rw [hv3]; norm_num) (by rw [hv3]; norm_num),
    Collider.collideLoop_nil_some]
  rw [Vec.setMag_of_ne (-(16/5))
      (by rw [Vec.mag_mk_y, abs_neg, abs_of_nonneg (by norm_num : (0:ℝ) ≤ 2/5)]; norm_num),
    Vec.mag_mk_y, abs_neg, abs_of_nonneg (by norm_num : (0:ℝ) ≤ 2/5)]
  norm_num [Vec.smul]

theorem Vec.mag_shear_vert2 : Vec.mag ⟨-(8/5), -2⟩ = Real.sqrt (164/25) := by
  unfold Vec.mag
  norm_num

theorem Vec.mag_shear_vert2_ge : (2:ℝ) ≤ Vec.mag ⟨-(8/5), -2⟩ := by
  rw [Vec.mag_shear_vert2]
  have h := Real.sqrt_le_sqrt (show (4:ℝ) ≤ 164/25 by norm_num)
  rwa [show Real.sqrt 4 = 2 from by
    rw [show (4:ℝ) = 2 * 2 by norm_num, Real.sqrt_mul_self (by norm_num : (0:ℝ) ≤ 2)]] at h

theorem Vec.mag_shear_vert2_le : Vec.mag ⟨-(8/5), -2⟩ ≤ 3 := by
  rw [Vec.mag_shear_vert2]
  have h := Real.sqrt_le_sqrt (show (164:ℝ)/25 ≤ 9 by norm_num)
  rwa [show Real.sqrt 9 = 3 from by
    rw [show (9:ℝ) = 3 * 3 by norm_num, Real.sqrt_mul_self (by norm_num : (0:ℝ) ≤ 3)]] at h

theorem Collider.radiusOnAxis_shearObb_vert2 :
    Collider.radiusOnAxis (Collider.obb ⟨1, 3/5, 0, 0, 4/5, 0⟩ Transform2D.identity 4 4)
      ⟨-(8/5), -2⟩ = 52/41 * Vec.mag ⟨-(8/5), -2⟩ := by
  unfold Collider.radiusOnAxis
  dsimp only
  rw [Collider.obbHalfDiagonals_shear]
  dsimp only
  rw [(by unfold Vec.project Vec.dot; norm_num :
      Vec.project ⟨4/5, -(8/5)⟩ ⟨-(8/5), -2⟩ = Vec.smul (12/41) ⟨-(8/5), -2⟩),
    (by unfold Vec.project Vec.dot; norm_num :
      Vec.project ⟨16/5, 8/5⟩ ⟨-(8/5), -2⟩ = Vec.smul (-(52/41)) ⟨-(8/5), -2⟩),
    Vec.mag_smul, Vec.mag_smul, abs_neg,
    abs_of_nonneg (by norm_num : (0:ℝ) ≤ 12/41),
    abs_of_nonneg (by norm_num : (0:ℝ) ≤ 52/41),
    max_eq_right (by
      have h := Vec.mag_nonneg (⟨-(8/5), -2⟩ : Vec)
      linarith : 12/41 * Vec.mag ⟨-(8/5), -2⟩ ≤ 52/41 * Vec.mag ⟨-(8/5), -2⟩)]

theorem collide_shear_eval2 :
    Collider.collide (Collider.circle Transform2D.identity ⟨1, 0, 4/5, 0, 1, 18/5⟩ 2)
      (Collider.obb ⟨1, 3/5, 0, 0, 4/5, 0⟩ Transform2D.identity 4 4) =
      some ⟨138/125, 184/125⟩ := by
  have hn0 := Vec.mag_nonneg (⟨-(8/5), -2⟩ : Vec)
  have hn3 := Vec.mag_shear_vert2_le
  unfold Collider.collide
  have hdelta : Vec.sub
      (Collider.center (Collider.obb ⟨1, 3/5, 0, 0, 4/5, 0⟩ Transform2D.identity 4 4))
      (Collider.center (Collider.circle Transform2D.identity ⟨1, 0, 4/5, 0, 1, 18/5⟩ 2)) =
      ⟨-(4/5), -(18/5)⟩ := by
    rw [Collider.center_obb_shear, Collider.center_circle_unit]
    ext <;> norm_num [Vec.sub]
  rw [Collider.axesForShapes_shear2, hdelta]
  have hw1 : Collider.overlapOn
      (Collider.circle Transform2D.identity ⟨1, 0, 4/5, 0, 1, 18/5⟩ 2)
      (Collider.obb ⟨1, 3/5, 0, 0, 4/5, 0⟩ Transform2D.identity 4 4)
      ⟨-(4/5), -(18/5)⟩ ⟨-(8/5), -2⟩ = 2 - 1/41 * Vec.mag ⟨-(8/5), -2⟩ := by
    unfold Collider.overlapOn
    rw [Collider.radiusOnAxis_shearCircle, Collider.radiusOnAxis_shearObb_vert2,
      (by unfold Vec.project Vec.dot; norm_num :
        Vec.project ⟨-(4/5), -(18/5)⟩ ⟨-(8/5), -2⟩ = Vec.smul (53/41) ⟨-(8/5), -2⟩),
      Vec.mag_smul, abs_of_nonneg (by norm_num : (0:ℝ) ≤ 53/41)]
    ring
  have hw2 : Collider.overlapOn
      (Collider.circle Transform2D.identity ⟨1, 0, 4/5, 0, 1, 18/5⟩ 2)
      (Collider.obb ⟨1, 3/5, 0, 0, 4/5, 0⟩ Transform2D.identity 4 4)
      ⟨-(4/5), -(18/5)⟩ ⟨4, 0⟩ = 22/5 := by
    unfold Collider.overlapOn
    rw [Collider.radiusOnAxis_shearCircle, Collider.radiusOnAxis_shearObb_e1,
      (by unfold Vec.project Vec.dot Vec.smul; ext <;> norm_num :
        Vec.project ⟨-(4/5), -(18/5)⟩ ⟨4, 0⟩ = (⟨-(4/5), 0⟩ : Vec)),
      Vec.mag_mk_x, abs_neg, abs_of_nonneg (by norm_num : (0:ℝ) ≤ 4/5)]
    norm_num
  have hw3 : Collider.overlapOn
      (Collider.circle Transform2D.identity ⟨1, 0, 4/5, 0, 1, 18/5⟩ 2)
      (Collider.obb ⟨1, 3/5, 0, 0, 4/5, 0⟩ Transform2D.identity 4 4)
      ⟨-(4/5), -(18/5)⟩ ⟨12/5, 16/5⟩ = 46/25 := by
    unfold Collider.overlapOn
    rw [Collider.radiusOnAxis_shearCircle, Collider.radiusOnAxis_shearObb_e2,
      (by unfold Vec.project Vec.dot; norm_num :
        Vec.project ⟨-(4/5), -(18/5)⟩ ⟨12/5, 16/5⟩ = Vec.smul (-(21/25)) ⟨12/5, 16/5⟩),
      Vec.mag_smul, Vec.mag_shear_e2, abs_neg,
      abs_of_nonneg (by norm_num : (0:ℝ) ≤ 21/25)]
    norm_num
  have hst1 : Collider.storedAxis ⟨-(4/5), -(18/5)⟩ ⟨-(8/5), -2⟩ =
      ⟨-(424/205), -(106/41)⟩ := by
    unfold Collider.storedAxis
    rw [(by unfold Vec.project Vec.dot Vec.smul; ext <;> norm_num :
      Vec.project ⟨-(4/5), -(18/5)⟩ ⟨-(8/5), -2⟩ = (⟨-(424/205), -(106/41)⟩ : Vec))]
    rw [if_neg (by intro hc; have := congrArg Vec.y hc; norm_num [Vec.zero] at this)]
  have hst3 : Collider.storedAxis ⟨-(4/5), -(18/5)⟩ ⟨12/5, 16/5⟩ =
      ⟨-(252/125), -(336/125)⟩ := by
    unfold Collider.storedAxis
    rw [(by unfold Vec.project Vec.dot Vec.smul; ext <;> norm_num :
      Vec.project ⟨-(4/5), -(18/5)⟩ ⟨12/5, 16/5⟩ = (⟨-(252/125), -(336/125)⟩ : Vec))]
    rw [if_neg (by intro hc; have := congrArg Vec.y hc; norm_num [Vec.zero] at this)]
  rw [Collider.collideLoop_cons_none
      (Collider.circle Transform2D.identity ⟨1, 0, 4/5, 0, 1, 18/5⟩ 2)
      (Collider.obb ⟨1, 3/5, 0, 0, 4/5, 0⟩ Transform2D.identity 4 4)
      ⟨-(4/5), -(18/5)⟩ ⟨-(8/5), -2⟩ [⟨4, 0⟩, ⟨12/5, 16/5⟩]
      (by rw [hw1]; intro hc; linarith),
    hw1, hst1]
  rw [Collider.collideLoop_cons_some_ge
      (Collider.circle Transform2D.identity ⟨1, 0, 4/5, 0, 1, 18/5⟩ 2)
      (Collider.obb ⟨1, 3/5, 0, 0, 4/5, 0⟩ Transform2D.identity 4 4)
      ⟨-(4/5), -(18/5)⟩ ⟨4, 0⟩ [⟨12/5, 16/5⟩] (2 - 1/41 * Vec.mag ⟨-(8/5), -2⟩)
      ⟨-(424/205), -(106/41)⟩
      (by rw [hw2]; norm_num) (by rw [hw2]; intro hc; linarith)]
  rw [Collider.collideLoop_cons_some_lt
      (Collider.circle Transform2D.identity ⟨1, 0, 4/5, 0, 1, 18/5⟩ 2)
      (Collider.obb ⟨1, 3/5, 0, 0, 4/5, 0⟩ Transform2D.identity 4 4)
      ⟨-(4/5), -(18/5)⟩ ⟨12/5, 16/5⟩ [] (2 - 1/41 * Vec.mag ⟨-(8/5), -2⟩)
      ⟨-(424/205), -(106/41)⟩
      (by rw [hw3]; norm_num) (by rw [hw3]; linarith),
    hw3, hst3, Collider.collideLoop_nil_some]
  have hmag : Vec.mag ⟨-(252/125), -(336/125)⟩ = 84/25 := by
    unfold Vec.mag
    rw [show (-(252/125) : ℝ) * (-(252/125)) + (-(336/125)) * (-(336/125)) =
        (84/25) * (84/25) by norm_num,
      Real.sqrt_mul_self (by norm_num : (0:ℝ) ≤ 84/25)]
  rw [Vec.setMag_of_ne (-(46/25)) (by rw [hmag]; norm_num), hmag]
  norm_num [Vec.smul]

/-- C1 counterexample: for the circle of scaled radius 2 centered (4/5, 2/5)
against the sheared box (local transform [1, 3/5; 0, 4/5], 4 by 4, centered
at the origin), `collide` returns the nonzero vector (0, 16/5), yet after
translating the circle by exactly that vector (its parent transform gains
the translation), `overlap` still reports true — the returned vector does
not eliminate the overlap.  (A sheared box's candidate axes are its edge
vectors, which are not face normals, and the circle's nearest-vertex axis
changes after the translation.) -/
theorem C1_translate_mtv_counterexample :
    Collider.collide (Collider.circle Transform2D.identity ⟨1, 0, 4/5, 0, 1, 2/5⟩ 2)
      (Collider.obb ⟨1, 3/5, 0, 0, 4/5, 0⟩ Transform2D.identity 4 4) =
      some ⟨0, 16/5⟩ ∧
    ((0:ℝ) ≠ 0 ∨ (16/5:ℝ) ≠ 0) ∧
    Transform2D.translate ⟨1, 0, 4/5, 0, 1, 2/5⟩ ⟨0, 16/5⟩ = ⟨1, 0, 4/5, 0, 1, 18/5⟩ ∧
    Collider.overlapHolds
      (Collider.circle Transform2D.identity ⟨1, 0, 4/5, 0, 1, 18/5⟩ 2)
      (Collider.obb ⟨1, 3/5, 0, 0, 4/5, 0⟩ Transform2D.identity 4 4) := by
  refine ⟨collide_shear_eval1, Or.inr (by norm_num), ?_, ?_⟩
  · ext <;> norm_num [Transform2D.translate, Transform2D.mult]
  · unfold Collider.overlapHolds
    rw [collide_shear_eval2]
    exact Or.inl (by norm_num)

theorem Collider.mem_dedupParallel {x : Vec} :
    ∀ {l : List Vec}, x ∈ Collider.dedupParallel l → x ∈ l := by
  intro l
  induction l with
  | nil => simp [Collider.dedupParallel]
  | cons v vs ih =>
      simp only [Collider.dedupParallel]
      split_ifs with h
      · intro hx
        exact List.mem_cons_of_mem v (ih hx)
      · intro hx
        rcases List.mem_cons.mp hx with h1 | h1
        · exact List.mem_cons.mpr (Or.inl h1)
        · exact List.mem_cons_of_mem v (ih h1)

theorem Collider.axesForShapes_ne_zero (a b : Collider) :
    ∀ ax ∈ Collider.axesForShapes a b, ax ≠ Vec.zero := by
  intro ax hax
  have hmem := Collider.mem_dedupParallel hax
  rcases List.mem_map.mp hmem with ⟨y, -, hy⟩
  by_cases hz : y = Vec.zero
  · rw [if_pos hz] at hy
    rw [← hy]
    intro hc
    have := congrArg Vec.x hc
    norm_num [Collider.xAxis, Vec.zero] at this
  · rw [if_neg hz] at hy
    rw [← hy]
    exact hz

theorem Collider.storedAxis_ne_zero (delta axis : Vec) (h : axis ≠ Vec.zero) :
    Collider.storedAxis delta axis ≠ Vec.zero := by
  unfold Collider.storedAxis
  split_ifs with hp
  · exact h
  · exact hp

theorem Vec.mag_setMag {w : Vec} (m : ℝ) (h : Vec.mag w ≠ 0) :
    Vec.mag (Vec.setMag w m) = |m| := by
  rw [Vec.setMag_of_ne m h, Vec.mag_smul, abs_div, abs_of_nonneg (Vec.mag_nonneg w)]
  field_simp

theorem Collider.collideLoop_min (a b : Collider) (delta : Vec) :
    ∀ (axes : List Vec) (s : ℝ) (ax : Vec) (v : Vec),
      Collider.collideLoop a b delta axes (some (s, ax)) = some v →
      (v.x ≠ 0 ∨ v.y ≠ 0) →
      0 < s → Vec.mag ax ≠ 0 →
      (∀ ax' ∈ axes, ax' ≠ Vec.zero) →
      ∃ s', Vec.mag v = s' ∧ 0 < s' ∧ s' ≤ s ∧
        (s' = s ∨ ∃ axm ∈ axes, s' = Collider.overlapOn a b delta axm) ∧
        ∀ ax' ∈ axes, s' ≤ Collider.overlapOn a b delta ax' := by
  intro axes
  induction axes with
  | nil =>
      intro s ax v hv hnz hs hax hall
      simp only [Collider.collideLoop, Option.some.injEq] at hv
      subst hv
      refine ⟨s, ?_, hs, le_refl s, Or.inl rfl, by simp⟩
      rw [Vec.mag_setMag (-s) hax, abs_neg, abs_of_pos hs]
  | cons axis rest ih =>
      intro s ax v hv hnz hs hax hall
      simp only [Collider.collideLoop] at hv
      by_cases h0 : Collider.overlapOn a b delta axis ≤ 0
      · rw [if_pos h0] at hv
        simp only [Option.some.injEq] at hv
        subst hv
        norm_num [Vec.zero] at hnz
      · rw [if_neg h0] at hv
        push_neg at h0
        by_cases hlt : Collider.overlapOn a b delta axis < s
        · rw [if_pos hlt] at hv
          have haxis : axis ≠ Vec.zero := hall axis (List.mem_cons_self _ _)
          have hstored : Vec.mag (Collider.storedAxis delta axis) ≠ 0 := by
            intro hc
            exact Collider.storedAxis_ne_zero delta axis haxis (Vec.mag_eq_zero_iff.mp hc)
          obtain ⟨s', h1, h2, h3, h4, h5⟩ :=
            ih (Collider.overlapOn a b delta axis) (Collider.storedAxis delta axis) v hv
              hnz h0 hstored (fun ax' hm => hall ax' (List.mem_cons_of_mem _ hm))
          refine ⟨s', h1, h2, le_trans h3 (le_of_lt hlt), ?_, ?_⟩
          · rcases h4 with h4 | ⟨axm, hmem, heq⟩
            · exact Or.inr ⟨axis, List.mem_cons_self _ _, h4⟩
            · exact Or.inr ⟨axm, List.mem_cons_of_mem _ hmem, heq⟩
          · intro ax' hm
            rcases List.mem_cons.mp hm with h | h
            · rw [h]; exact h3
            · exact h5 ax' h
        · rw [if_neg hlt] at hv
          push_neg at hlt
          obtain ⟨s', h1, h2, h3, h4, h5⟩ :=
            ih s ax v hv hnz hs hax (fun ax' hm => hall ax' (List.mem_cons_of_mem _ hm))
          refine ⟨s', h1, h2, h3, ?_, ?_⟩
          · rcases h4 with h4 | ⟨axm, hmem, heq⟩
            · exact Or.inl h4
            · exact Or.inr ⟨axm, List.mem_cons_of_mem _ hmem, heq⟩
          · intro ax' hm
            rcases List.mem_cons.mp hm with h | h
            · rw [h]; exact le_trans h3 hlt
            · exact h5 ax' h

/-- C1 amended: `overlap(a,b)` holds exactly when `collide(a,b)` returns a
nonzero vector, and a nonzero returned vector's magnitude is the smallest
per-axis penetration over all tested candidate axes, attained on one of
them (the axis of least penetration).  However, translating shape `a` by
the returned vector does NOT always make the overlap false: it fails for a
circle against a sheared box (see the counterexample), whose candidate
axes are edge vectors rather than face normals and whose nearest-vertex
axis moves with the translation. -/
theorem C1_overlap_collide_minimality (a b : Collider) :
    (Collider.overlapHolds a b ↔
      ∃ v, Collider.collide a b = some v ∧ (v.x ≠ 0 ∨ v.y ≠ 0)) ∧
    (∀ v, Collider.collide a b = some v → (v.x ≠ 0 ∨ v.y ≠ 0) →
      ∃ ax ∈ Collider.axesForShapes a b,
        Vec.mag v = Collider.overlapOn a b
          (Vec.sub (Collider.center b) (Collider.center a)) ax ∧
        0 < Vec.mag v ∧
        ∀ ax' ∈ Collider.axesForShapes a b,
          Vec.mag v ≤ Collider.overlapOn a b
            (Vec.sub (Collider.center b) (Collider.center a)) ax') := by
  constructor
  · unfold Collider.overlapHolds
    cases hc : Collider.collide a b with
    | none => simp
    | some d =>
        simp only [Option.elim_some]
        constructor
        · intro h
          exact ⟨d, rfl, h⟩
        · rintro ⟨v, hv, hnzv⟩
          injection hv with h
          subst h
          exact hnzv
  · intro v hv hnz
    have hnz_all := Collider.axesForShapes_ne_zero a b
    unfold Collider.collide at hv
    cases haxes : Collider.axesForShapes a b with
    | nil =>
        rw [haxes] at hv
        simp [Collider.collideLoop] at hv
    | cons ax1 rest =>
        rw [haxes] at hv hnz_all
        simp only [Collider.collideLoop] at hv
        by_cases h0 : Collider.overlapOn a b
            (Vec.sub (Collider.center b) (Collider.center a)) ax1 ≤ 0
        · rw [if_pos h0] at hv
          simp only [Option.some.injEq] at hv
          subst hv
          norm_num [Vec.zero] at hnz
        · rw [if_neg h0] at hv
          push_neg at h0
          have hax1 : ax1 ≠ Vec.zero := hnz_all ax1 (List.mem_cons_self _ _)
          have hstored : Vec.mag (Collider.storedAxis
              (Vec.sub (Collider.center b) (Collider.center a)) ax1) ≠ 0 := by
            intro hc
            exact Collider.storedAxis_ne_zero _ ax1 hax1 (Vec.mag_eq_zero_iff.mp hc)
          obtain ⟨s', h1, h2, h3, h4, h5⟩ :=
            Collider.collideLoop_min a b _ rest _ _ v hv hnz h0 hstored
              (fun ax' hm => hnz_all ax' (List.mem_cons_of_mem _ hm))
          rcases h4 with h4 | ⟨axm, hmem, heq⟩
          · refine ⟨ax1, List.mem_cons_self _ _, by rw [h1, h4], by rw [h1]; exact h2, ?_⟩
            intro ax' hm
            rcases List.mem_cons.mp hm with h | h
            · rw [h1, h, h4]
            · rw [h1]
              exact h5 ax' h
          · refine ⟨axm, List.mem_cons_of_mem _ hmem, by rw [h1, heq],
              by rw [h1]; exact h2, ?_⟩
            intro ax' hm
            rcases List.mem_cons.mp hm with h | h
            · rw [h1, h]
              exact h3
            · rw [h1]
              exact h5 ax' h

theorem collide_unit_circles_eval :
    Collider.collide (Collider.circle Transform2D.identity Transform2D.identity 1)
      (Collider.circle Transform2D.identity Transform2D.identity 1) = some ⟨-2, 0⟩ := by
  have hsr : Collider.scaledRadiusAux Transform2D.identity Transform2D.identity 1 = |1| :=
    Collider.scaledRadiusAux_unit 0 0 1
  have hd : Vec.sub
      (Collider.center (Collider.circle Transform2D.identity Transform2D.identity 1))
      (Collider.center (Collider.circle Transform2D.identity Transform2D.identity 1)) =
      Vec.zero := Vec.sub_self_vec _
  rw [Collider.collide_circle_hit_deg Transform2D.identity Transform2D.identity 1
    Transform2D.identity Transform2D.identity 1 hd (by rw [hsr]; norm_num), hsr]
  norm_num

/-- Witness for the amended C1 at two coincident unit circles, where
`collide` returns (-2, 0): magnitude 2 is the (minimal) per-axis
penetration, attained on a tested axis. -/
theorem C1_overlap_collide_minimality_witness :
    ∃ ax ∈ Collider.axesForShapes
        (Collider.circle Transform2D.identity Transform2D.identity 1)
        (Collider.circle Transform2D.identity Transform2D.identity 1),
      Vec.mag ⟨-2, 0⟩ = Collider.overlapOn
        (Collider.circle Transform2D.identity Transform2D.identity 1)
        (Collider.circle Transform2D.identity Transform2D.identity 1)
        (Vec.sub
          (Collider.center (Collider.circle Transform2D.identity Transform2D.identity 1))
          (Collider.center (Collider.circle Transform2D.identity Transform2D.identity 1)))
        ax ∧
      0 < Vec.mag ⟨-2, 0⟩ ∧
      ∀ ax' ∈ Collider.axesForShapes
          (Collider.circle Transform2D.identity Transform2D.identity 1)
          (Collider.circle Transform2D.identity Transform2D.identity 1),
        Vec.mag ⟨-2, 0⟩ ≤ Collider.overlapOn
          (Collider.circle Transform2D.identity Transform2D.identity 1)
          (Collider.circle Transform2D.identity Transform2D.identity 1)
          (Vec.sub
            (Collider.center
              (Collider.circle Transform2D.identity Transform2D.identity 1))
            (Collider.center
              (Collider.circle Transform2D.identity Transform2D.identity 1)))
          ax' :=
  (C1_overlap_collide_minimality _ _).2 ⟨-2, 0⟩ collide_unit_circles_eval
    (Or.inl (by norm_num))

end P5
